import Mathlib

set_option maxRecDepth 8000

/-! Shallow embedding of `src/include/hashmap.hpp` (cacheX): an intrusive
chained hash table (`HTab`) and a progressive-rehashing map (`HMap`) built
from two such tables.  Machine integers (`size_t`, `uint64_t`) are modelled
as `Nat`: the only arithmetic performed on them (`+ 1`, `- 1`, `&`, `*`)
never overflows at 64 bits in any state considered, and slot indexing
always masks with `capacity - 1`. -/

/-- The compiled-in migration work quota (`kRehasingWork`). -/
def kRehasingWork : Nat := 128

/-- The compiled-in growth threshold factor (`kMaxLoadFactor`). -/
def kMaxLoadFactor : Nat := 8

/-- Model of `HNode`: the intrusive `next` pointer is represented by the position of
the node inside its slot's chain (a `List`); `hcode` is the caller-supplied
hash code; `key` stands for the identity of the caller record the node is
embedded in (consulted only through the equality callback). -/
structure HNode where
  hcode : Nat
  key : Nat
deriving DecidableEq, Repr

/-- Model of `HTab`: `tab = none` models the null slot-array pointer; a slot is the
list of the nodes of its chain, head first. -/
structure HTab where
  tab : Option (List (List HNode)) := none
  mask : Nat := 0
  size : Nat := 0
deriving DecidableEq, Repr

/-- Model of `HTab{}`, all members default-initialized. -/
def emptyTab : HTab := {}

/-- Model of `HTab::init(n)`: allocate a zero-filled (all-empty) slot array of `n`
slots.  The `assert` that `n` is a positive power of two is a
precondition; both call sites pass one. -/
def HTab.init (n : Nat) : HTab :=
  { tab := some (List.replicate n []), mask := n - 1, size := 0 }

/-- Model of `HTab::get_position`: `hcode & mask`. -/
def HTab.get_position (t : HTab) (hcode : Nat) : Nat := hcode &&& t.mask

/-- Model of `HTab::insert`: push the node at the head of its slot's chain and
increment the count.  An uninitialized table (null `tab`) would fault in
C++; the model returns the table unchanged, and the map-level code never
reaches that case. -/
def HTab.insert (t : HTab) (node : HNode) : HTab :=
  match t.tab with
  | none => t
  | some a =>
    let pos := t.get_position node.hcode
    { t with tab := some (a.set pos (node :: a.getD pos [])), size := t.size + 1 }

/-- The scan condition of `HTab::lookup`: compare hash codes first (cheap
integer compare), then call the equality callback. -/
def nodeMatch (key : HNode) (eqf : HNode → HNode → Bool) (cur : HNode) : Bool :=
  cur.hcode == key.hcode && eqf cur key

/-- The chain scan of `HTab::lookup`, returning the first matching node
(the C++ function returns the incoming link pointing at that node; the
model returns the node, which is what `HMap::lookup` dereferences). -/
def findFirst (key : HNode) (eqf : HNode → HNode → Bool) : List HNode → Option HNode
  | [] => none
  | cur :: rest => if nodeMatch key eqf cur then some cur else findFirst key eqf rest

/-- Model of `HTab::lookup` as consumed by `HMap::lookup`: the found node, if any;
`none` also when the table is uninitialized. -/
def HTab.lookup (t : HTab) (key : HNode) (eqf : HNode → HNode → Bool) : Option HNode :=
  match t.tab with
  | none => none
  | some a => findFirst key eqf (a.getD (t.get_position key.hcode) [])

/-- The chain-level effect of `HTab::lookup` followed by `HTab::detach`:
splice the first matching node out, returning it and the rest of the
chain. -/
def removeFirstMatch (key : HNode) (eqf : HNode → HNode → Bool) :
    List HNode → Option (HNode × List HNode)
  | [] => none
  | cur :: rest =>
    if nodeMatch key eqf cur then some (cur, rest)
    else
      match removeFirstMatch key eqf rest with
      | some (n, rest') => some (n, cur :: rest')
      | none => none

/-- Model of `HTab::lookup` followed by `HTab::detach`, as used by
`HMap::hm_delete`: remove the first matching node and decrement the
count. -/
def HTab.removeMatch (t : HTab) (key : HNode) (eqf : HNode → HNode → Bool) :
    Option (HNode × HTab) :=
  match t.tab with
  | none => none
  | some a =>
    let pos := t.get_position key.hcode
    match removeFirstMatch key eqf (a.getD pos []) with
    | some (n, rest) =>
      some (n, { t with tab := some (a.set pos rest), size := t.size - 1 })
    | none => none

/-- The inner chain walk of `HTab::foreach`.  The visitor threads the C++
`void *arg` state explicitly and returns whether to continue. -/
def foreachChain {σ : Type} (f : HNode → σ → Bool × σ) : List HNode → σ → Bool × σ
  | [], arg => (true, arg)
  | node :: rest, arg =>
    let r := f node arg
    if r.1 then foreachChain f rest r.2 else (false, r.2)

/-- The slot loop of `HTab::foreach`
(`for i = 0; mask != 0 && i <= mask; i++`), as a recursion on the number of
slots still to visit. -/
def foreachFrom {σ : Type} (f : HNode → σ → Bool × σ) (a : List (List HNode)) :
    Nat → Nat → σ → Bool × σ
  | _, 0, arg => (true, arg)
  | i, cnt + 1, arg =>
    let r := foreachChain f (a.getD i []) arg
    if r.1 then foreachFrom f a (i + 1) cnt r.2 else (false, r.2)

/-- Model of `HTab::foreach`: when `mask = 0` the loop condition is false at once
(this is what keeps an uninitialized table from being dereferenced). -/
def HTab.foreach {σ : Type} (t : HTab) (f : HNode → σ → Bool × σ) (arg : σ) : Bool × σ :=
  if t.mask = 0 then (true, arg)
  else foreachFrom f (t.tab.getD []) 0 (t.mask + 1) arg

/-- Model of `HMap`: the progressive map; `newer` is the active table, `older` the
retiring one. -/
structure HMap where
  newer : HTab := {}
  older : HTab := {}
  migrate_pos : Nat := 0
deriving DecidableEq, Repr

/-- A default-constructed (empty) map. -/
def HMap.empty : HMap := {}

/-- Iteration budget for the `while` loop of `HMap::help_rehashing`.  Each
iteration either charges one quota unit (at most `kRehasingWork` of them)
or advances the cursor past an empty slot (in every reachable state the
cursor stays within the retiring array, giving at most `mask + 1`
advances), so on reachable states this fuel is never exhausted; it only
makes the recursion total. -/
def helpFuel (m : HMap) : Nat := kRehasingWork + m.older.mask + 2

/-- The `while (nwork < kRehasingWork && older.size > 0)` loop of
`HMap::help_rehashing`: an empty slot at the cursor advances the cursor;
otherwise the head of the slot's chain is detached from `older` and
reinserted into `newer`, charging one quota unit. -/
def HMap.help_loop (m : HMap) (nwork : Nat) : Nat → HMap
  | 0 => m
  | fuel + 1 =>
    if nwork < kRehasingWork ∧ 0 < m.older.size then
      match (m.older.tab.getD []).getD m.migrate_pos [] with
      | [] => HMap.help_loop { m with migrate_pos := m.migrate_pos + 1 } nwork fuel
      | node :: rest =>
        HMap.help_loop
          { m with
            older := { m.older with
                       tab := some ((m.older.tab.getD []).set m.migrate_pos rest),
                       size := m.older.size - 1 },
            newer := m.newer.insert node } (nwork + 1) fuel
    else m

/-- Model of `HMap::help_rehashing`: run the bounded loop, then discard the retiring
table exactly when it has drained (`older.size == 0 && older.tab`): its
array is freed and it reverts to `HTab{}`. -/
def HMap.help_rehashing (m : HMap) : HMap :=
  let m1 := m.help_loop 0 (helpFuel m)
  if m1.older.size = 0 ∧ m1.older.tab.isSome then { m1 with older := emptyTab } else m1

/-- Model of `HMap::trigger_rehashing`: the current active table becomes the
retiring one, a fresh table of twice its capacity becomes active, and the
cursor is reset.  (The `assert(older.tab == nullptr)` is its precondition;
the single call site checks it.) -/
def HMap.trigger_rehashing (m : HMap) : HMap :=
  { older := m.newer, newer := HTab.init ((m.newer.mask + 1) * 2), migrate_pos := 0 }

/-- The first two statements of `HMap::insert`: lazy initialization of the
active table (capacity 4) and the chain push. -/
def HMap.insertNode (m : HMap) (node : HNode) : HMap :=
  let m1 := if m.newer.tab.isNone then { m with newer := HTab.init 4 } else m
  { m1 with newer := m1.newer.insert node }

/-- Model of `HMap::insert`: push the node, then — only when no cycle is in progress
(`!older.tab`) and the active load reaches `capacity * kMaxLoadFactor` —
start a new cycle; finally perform one bounded migration step. -/
def HMap.insert (m : HMap) (node : HNode) : HMap :=
  let m2 := m.insertNode node
  let m3 :=
    if m2.older.tab.isNone then
      if (m2.newer.mask + 1) * kMaxLoadFactor ≤ m2.newer.size then m2.trigger_rehashing
      else m2
    else m2
  m3.help_rehashing

/-- Model of `HMap::lookup`: one bounded migration step, probe the active table,
fall back to the retiring table, return the found node or `none`.  The
first component is the state after the migration step. -/
def HMap.lookup (m : HMap) (key : HNode) (eqf : HNode → HNode → Bool) :
    HMap × Option HNode :=
  let m1 := m.help_rehashing
  match m1.newer.lookup key eqf with
  | some n => (m1, some n)
  | none => (m1, m1.older.lookup key eqf)

/-- Model of `HMap::hm_delete`: one bounded migration step, then detach from the
active table, falling back to the retiring table; `none` on a miss. -/
def HMap.hm_delete (m : HMap) (key : HNode) (eqf : HNode → HNode → Bool) :
    HMap × Option HNode :=
  let m1 := m.help_rehashing
  match m1.newer.removeMatch key eqf with
  | some (n, t) => ({ m1 with newer := t }, some n)
  | none =>
    match m1.older.removeMatch key eqf with
    | some (n, t) => ({ m1 with older := t }, some n)
    | none => (m1, none)

/-- Model of `HMap::clear`: `free` releases the two backing arrays but writes no
field of the structure — the slot-array pointers, masks, counts and the
cursor are all left as they were — so as a transformer of the modelled
state it is the identity. -/
def HMap.clear (m : HMap) : HMap := m

/-- Model of `HMap::size`: the sum of the two live counts. -/
def HMap.size (m : HMap) : Nat := m.newer.size + m.older.size

/-- Model of `HMap::foreach`: `newer.foreach(f, arg) && older.foreach(f, arg)` —
the retiring table is visited only if the active one ran to completion. -/
def HMap.foreach {σ : Type} (m : HMap) (f : HNode → σ → Bool × σ) (arg : σ) : Bool × σ :=
  let r := m.newer.foreach f arg
  if r.1 then m.older.foreach f r.2 else r

/-- All nodes stored in a table, in traversal order (slot index order,
chain order within a slot). -/
def HTab.nodes (t : HTab) : List HNode := (t.tab.getD []).flatten

/-- All nodes stored in the map: active table first, then retiring. -/
def HMap.contents (m : HMap) : List HNode := m.newer.nodes ++ m.older.nodes

/-- A visitor that never asks to stop and records every node shown to it. -/
def collectVisitor : HNode → List HNode → Bool × List HNode :=
  fun node acc => (true, acc ++ [node])

/-- A caller equality callback: two nodes represent the same key when their
`key` payloads agree. -/
def nodeKeyEq : HNode → HNode → Bool := fun a b => a.key == b.key

/-- Scenario helper `insertMany k`: insert the nodes `⟨0,0⟩, ⟨1,1⟩, …, ⟨k-1,k-1⟩` (distinct
hash codes, in that order) into the empty map. -/
def insertMany : Nat → HMap
  | 0 => HMap.empty
  | k + 1 => (insertMany k).insert ⟨k, k⟩

/-- States reachable from the empty map by the public mutating entry
points. -/
inductive Reachable : HMap → Prop
  | empty : Reachable HMap.empty
  | insert {m} (node : HNode) : Reachable m → Reachable (m.insert node)
  | lookup {m} (key : HNode) (eqf : HNode → HNode → Bool) :
      Reachable m → Reachable (m.lookup key eqf).1
  | hm_delete {m} (key : HNode) (eqf : HNode → HNode → Bool) :
      Reachable m → Reachable (m.hm_delete key eqf).1

/-- Scenario helper: insert the nodes `⟨k,k⟩, …, ⟨k+c-1,k+c-1⟩` (in that
order) into `m`.  Used to evaluate long insert prefixes in bounded-depth
chunks. -/
def insertRange (m : HMap) (k : Nat) : Nat → HMap
  | 0 => m
  | c + 1 => insertRange (m.insert ⟨k, k⟩) (k + 1) c

/-- Total number of nodes held in a slot array (sum of the chain
lengths). -/
def totalLen (a : List (List HNode)) : Nat := (a.map List.length).sum

/-- The list of nodes a traversal of slots `i, i+1, …, i+c-1` encounters,
chain by chain. -/
def chainsFrom (a : List (List HNode)) : Nat → Nat → List HNode
  | _, 0 => []
  | i, c + 1 => a.getD i [] ++ chainsFrom a (i + 1) c

/-- Scenario A query key: a hash code carried by no inserted node, so every
lookup with it misses. -/
def missKey : HNode := ⟨1000, 1000⟩

/-- Scenario A no-op lookup: the state after one miss-lookup. -/
def lookupMiss (m : HMap) : HMap := (m.lookup missKey nodeKeyEq).1

/-- Scenario A: the state after five further miss-lookups on the 33-insert
state. -/
def scenarioAfterLookups : HMap :=
  lookupMiss (lookupMiss (lookupMiss (lookupMiss (lookupMiss (insertMany 33)))))

/-- Scenario B node A (hash code 1). -/
def nodeA : HNode := ⟨1, 101⟩

/-- Scenario B node B (hash code 5; `5 & 3 = 1 & 3`, same slot as node A in
a 4-slot table). -/
def nodeB : HNode := ⟨5, 102⟩

/-- A concrete map state whose retiring table is allocated (cycle in
progress as far as `insert`'s `older.tab` test is concerned). -/
def cycleState : HMap :=
  { newer := { tab := some [[], [⟨5, 5⟩], [], []], mask := 3, size := 1 },
    older := { tab := some [[⟨2, 2⟩], [], [], []], mask := 3, size := 1 },
    migrate_pos := 0 }

/-- A concrete map state in which a delete has already driven the retiring
count to zero but the retiring array has not been freed yet: the next
migration step's final check frees it. -/
def drainedState : HMap :=
  { newer := { tab := some [[], [⟨9, 9⟩], [], []], mask := 3, size := 1 },
    older := { tab := some [[], [], [], []], mask := 3, size := 0 },
    migrate_pos := 2 }

/-- The map state after the first 64 scenario inserts (verified below). -/
def state64 : HMap :=
  { newer := { tab := some [[{ hcode := 16, key := 16 },
                        { hcode := 0, key := 0 },
                        { hcode := 32, key := 32 },
                        { hcode := 48, key := 48 }],
                       [{ hcode := 17, key := 17 },
                        { hcode := 1, key := 1 },
                        { hcode := 33, key := 33 },
                        { hcode := 49, key := 49 }],
                       [{ hcode := 18, key := 18 },
                        { hcode := 2, key := 2 },
                        { hcode := 34, key := 34 },
                        { hcode := 50, key := 50 }],
                       [{ hcode := 19, key := 19 },
                        { hcode := 3, key := 3 },
                        { hcode := 35, key := 35 },
                        { hcode := 51, key := 51 }],
                       [{ hcode := 20, key := 20 },
                        { hcode := 4, key := 4 },
                        { hcode := 36, key := 36 },
                        { hcode := 52, key := 52 }],
                       [{ hcode := 21, key := 21 },
                        { hcode := 5, key := 5 },
                        { hcode := 37, key := 37 },
                        { hcode := 53, key := 53 }],
                       [{ hcode := 22, key := 22 },
                        { hcode := 6, key := 6 },
                        { hcode := 38, key := 38 },
                        { hcode := 54, key := 54 }],
                       [{ hcode := 23, key := 23 },
                        { hcode := 7, key := 7 },
                        { hcode := 39, key := 39 },
                        { hcode := 55, key := 55 }],
                       [{ hcode := 24, key := 24 },
                        { hcode := 8, key := 8 },
                        { hcode := 40, key := 40 },
                        { hcode := 56, key := 56 }],
                       [{ hcode := 25, key := 25 },
                        { hcode := 9, key := 9 },
                        { hcode := 41, key := 41 },
                        { hcode := 57, key := 57 }],
                       [{ hcode := 26, key := 26 },
                        { hcode := 10, key := 10 },
                        { hcode := 42, key := 42 },
                        { hcode := 58, key := 58 }],
                       [{ hcode := 27, key := 27 },
                        { hcode := 11, key := 11 },
                        { hcode := 43, key := 43 },
                        { hcode := 59, key := 59 }],
                       [{ hcode := 28, key := 28 },
                        { hcode := 12, key := 12 },
                        { hcode := 44, key := 44 },
                        { hcode := 60, key := 60 }],
                       [{ hcode := 29, key := 29 },
                        { hcode := 13, key := 13 },
                        { hcode := 45, key := 45 },
                        { hcode := 61, key := 61 }],
                       [{ hcode := 30, key := 30 },
                        { hcode := 14, key := 14 },
                        { hcode := 46, key := 46 },
                        { hcode := 62, key := 62 }],
                       [{ hcode := 31, key := 31 },
                        { hcode := 15, key := 15 },
                        { hcode := 47, key := 47 },
                        { hcode := 63, key := 63 }]],
               mask := 15,
               size := 64 },
    older := { tab := none, mask := 0, size := 0 },
    migrate_pos := 7 }

/-- The map state after the first 128 scenario inserts (verified below). -/
def state128 : HMap :=
  { newer := { tab := some [[{ hcode := 32, key := 32 },
                        { hcode := 0, key := 0 },
                        { hcode := 64, key := 64 },
                        { hcode := 96, key := 96 }],
                       [{ hcode := 33, key := 33 },
                        { hcode := 1, key := 1 },
                        { hcode := 65, key := 65 },
                        { hcode := 97, key := 97 }],
                       [{ hcode := 34, key := 34 },
                        { hcode := 2, key := 2 },
                        { hcode := 66, key := 66 },
                        { hcode := 98, key := 98 }],
                       [{ hcode := 35, key := 35 },
                        { hcode := 3, key := 3 },
                        { hcode := 67, key := 67 },
                        { hcode := 99, key := 99 }],
                       [{ hcode := 36, key := 36 },
                        { hcode := 4, key := 4 },
                        { hcode := 68, key := 68 },
                        { hcode := 100, key := 100 }],
                       [{ hcode := 37, key := 37 },
                        { hcode := 5, key := 5 },
                        { hcode := 69, key := 69 },
                        { hcode := 101, key := 101 }],
                       [{ hcode := 38, key := 38 },
                        { hcode := 6, key := 6 },
                        { hcode := 70, key := 70 },
                        { hcode := 102, key := 102 }],
                       [{ hcode := 39, key := 39 },
                        { hcode := 7, key := 7 },
                        { hcode := 71, key := 71 },
                        { hcode := 103, key := 103 }],
                       [{ hcode := 40, key := 40 },
                        { hcode := 8, key := 8 },
                        { hcode := 72, key := 72 },
                        { hcode := 104, key := 104 }],
                       [{ hcode := 41, key := 41 },
                        { hcode := 9, key := 9 },
                        { hcode := 73, key := 73 },
                        { hcode := 105, key := 105 }],
                       [{ hcode := 42, key := 42 },
                        { hcode := 10, key := 10 },
                        { hcode := 74, key := 74 },
                        { hcode := 106, key := 106 }],
                       [{ hcode := 43, key := 43 },
                        { hcode := 11, key := 11 },
                        { hcode := 75, key := 75 },
                        { hcode := 107, key := 107 }],
                       [{ hcode := 44, key := 44 },
                        { hcode := 12, key := 12 },
                        { hcode := 76, key := 76 },
                        { hcode := 108, key := 108 }],
                       [{ hcode := 45, key := 45 },
                        { hcode := 13, key := 13 },
                        { hcode := 77, key := 77 },
                        { hcode := 109, key := 109 }],
                       [{ hcode := 46, key := 46 },
                        { hcode := 14, key := 14 },
                        { hcode := 78, key := 78 },
                        { hcode := 110, key := 110 }],
                       [{ hcode := 47, key := 47 },
                        { hcode := 15, key := 15 },
                        { hcode := 79, key := 79 },
                        { hcode := 111, key := 111 }],
                       [{ hcode := 48, key := 48 },
                        { hcode := 16, key := 16 },
                        { hcode := 80, key := 80 },
                        { hcode := 112, key := 112 }],
                       [{ hcode := 49, key := 49 },
                        { hcode := 17, key := 17 },
                        { hcode := 81, key := 81 },
                        { hcode := 113, key := 113 }],
                       [{ hcode := 50, key := 50 },
                        { hcode := 18, key := 18 },
                        { hcode := 82, key := 82 },
                        { hcode := 114, key := 114 }],
                       [{ hcode := 51, key := 51 },
                        { hcode := 19, key := 19 },
                        { hcode := 83, key := 83 },
                        { hcode := 115, key := 115 }],
                       [{ hcode := 52, key := 52 },
                        { hcode := 20, key := 20 },
                        { hcode := 84, key := 84 },
                        { hcode := 116, key := 116 }],
                       [{ hcode := 53, key := 53 },
                        { hcode := 21, key := 21 },
                        { hcode := 85, key := 85 },
                        { hcode := 117, key := 117 }],
                       [{ hcode := 54, key := 54 },
                        { hcode := 22, key := 22 },
                        { hcode := 86, key := 86 },
                        { hcode := 118, key := 118 }],
                       [{ hcode := 55, key := 55 },
                        { hcode := 23, key := 23 },
                        { hcode := 87, key := 87 },
                        { hcode := 119, key := 119 }],
                       [{ hcode := 56, key := 56 },
                        { hcode := 24, key := 24 },
                        { hcode := 88, key := 88 },
                        { hcode := 120, key := 120 }],
                       [{ hcode := 57, key := 57 },
                        { hcode := 25, key := 25 },
                        { hcode := 89, key := 89 },
                        { hcode := 121, key := 121 }],
                       [{ hcode := 58, key := 58 },
                        { hcode := 26, key := 26 },
                        { hcode := 90, key := 90 },
                        { hcode := 122, key := 122 }],
                       [{ hcode := 59, key := 59 },
                        { hcode := 27, key := 27 },
                        { hcode := 91, key := 91 },
                        { hcode := 123, key := 123 }],
                       [{ hcode := 60, key := 60 },
                        { hcode := 28, key := 28 },
                        { hcode := 92, key := 92 },
                        { hcode := 124, key := 124 }],
                       [{ hcode := 61, key := 61 },
                        { hcode := 29, key := 29 },
                        { hcode := 93, key := 93 },
                        { hcode := 125, key := 125 }],
                       [{ hcode := 62, key := 62 },
                        { hcode := 30, key := 30 },
                        { hcode := 94, key := 94 },
                        { hcode := 126, key := 126 }],
                       [{ hcode := 63, key := 63 },
                        { hcode := 31, key := 31 },
                        { hcode := 95, key := 95 },
                        { hcode := 127, key := 127 }]],
               mask := 31,
               size := 128 },
    older := { tab := none, mask := 0, size := 0 },
    migrate_pos := 15 }

/-- The map state after the first 192 scenario inserts (verified below). -/
def state192 : HMap :=
  { newer := { tab := some [[{ hcode := 160, key := 160 },
                        { hcode := 128, key := 128 },
                        { hcode := 32, key := 32 },
                        { hcode := 0, key := 0 },
                        { hcode := 64, key := 64 },
                        { hcode := 96, key := 96 }],
                       [{ hcode := 161, key := 161 },
                        { hcode := 129, key := 129 },
                        { hcode := 33, key := 33 },
                        { hcode := 1, key := 1 },
                        { hcode := 65, key := 65 },
                        { hcode := 97, key := 97 }],
                       [{ hcode := 162, key := 162 },
                        { hcode := 130, key := 130 },
                        { hcode := 34, key := 34 },
                        { hcode := 2, key := 2 },
                        { hcode := 66, key := 66 },
                        { hcode := 98, key := 98 }],
                       [{ hcode := 163, key := 163 },
                        { hcode := 131, key := 131 },
                        { hcode := 35, key := 35 },
                        { hcode := 3, key := 3 },
                        { hcode := 67, key := 67 },
                        { hcode := 99, key := 99 }],
                       [{ hcode := 164, key := 164 },
                        { hcode := 132, key := 132 },
                        { hcode := 36, key := 36 },
                        { hcode := 4, key := 4 },
                        { hcode := 68, key := 68 },
                        { hcode := 100, key := 100 }],
                       [{ hcode := 165, key := 165 },
                        { hcode := 133, key := 133 },
                        { hcode := 37, key := 37 },
                        { hcode := 5, key := 5 },
                        { hcode := 69, key := 69 },
                        { hcode := 101, key := 101 }],
                       [{ hcode := 166, key := 166 },
                        { hcode := 134, key := 134 },
                        { hcode := 38, key := 38 },
                        { hcode := 6, key := 6 },
                        { hcode := 70, key := 70 },
                        { hcode := 102, key := 102 }],
                       [{ hcode := 167, key := 167 },
                        { hcode := 135, key := 135 },
                        { hcode := 39, key := 39 },
                        { hcode := 7, key := 7 },
                        { hcode := 71, key := 71 },
                        { hcode := 103, key := 103 }],
                       [{ hcode := 168, key := 168 },
                        { hcode := 136, key := 136 },
                        { hcode := 40, key := 40 },
                        { hcode := 8, key := 8 },
                        { hcode := 72, key := 72 },
                        { hcode := 104, key := 104 }],
                       [{ hcode := 169, key := 169 },
                        { hcode := 137, key := 137 },
                        { hcode := 41, key := 41 },
                        { hcode := 9, key := 9 },
                        { hcode := 73, key := 73 },
                        { hcode := 105, key := 105 }],
                       [{ hcode := 170, key := 170 },
                        { hcode := 138, key := 138 },
                        { hcode := 42, key := 42 },
                        { hcode := 10, key := 10 },
                        { hcode := 74, key := 74 },
                        { hcode := 106, key := 106 }],
                       [{ hcode := 171, key := 171 },
                        { hcode := 139, key := 139 },
                        { hcode := 43, key := 43 },
                        { hcode := 11, key := 11 },
                        { hcode := 75, key := 75 },
                        { hcode := 107, key := 107 }],
                       [{ hcode := 172, key := 172 },
                        { hcode := 140, key := 140 },
                        { hcode := 44, key := 44 },
                        { hcode := 12, key := 12 },
                        { hcode := 76, key := 76 },
                        { hcode := 108, key := 108 }],
                       [{ hcode := 173, key := 173 },
                        { hcode := 141, key := 141 },
                        { hcode := 45, key := 45 },
                        { hcode := 13, key := 13 },
                        { hcode := 77, key := 77 },
                        { hcode := 109, key := 109 }],
                       [{ hcode := 174, key := 174 },
                        { hcode := 142, key := 142 },
                        { hcode := 46, key := 46 },
                        { hcode := 14, key := 14 },
                        { hcode := 78, key := 78 },
                        { hcode := 110, key := 110 }],
                       [{ hcode := 175, key := 175 },
                        { hcode := 143, key := 143 },
                        { hcode := 47, key := 47 },
                        { hcode := 15, key := 15 },
                        { hcode := 79, key := 79 },
                        { hcode := 111, key := 111 }],
                       [{ hcode := 176, key := 176 },
                        { hcode := 144, key := 144 },
                        { hcode := 48, key := 48 },
                        { hcode := 16, key := 16 },
                        { hcode := 80, key := 80 },
                        { hcode := 112, key := 112 }],
                       [{ hcode := 177, key := 177 },
                        { hcode := 145, key := 145 },
                        { hcode := 49, key := 49 },
                        { hcode := 17, key := 17 },
                        { hcode := 81, key := 81 },
                        { hcode := 113, key := 113 }],
                       [{ hcode := 178, key := 178 },
                        { hcode := 146, key := 146 },
                        { hcode := 50, key := 50 },
                        { hcode := 18, key := 18 },
                        { hcode := 82, key := 82 },
                        { hcode := 114, key := 114 }],
                       [{ hcode := 179, key := 179 },
                        { hcode := 147, key := 147 },
                        { hcode := 51, key := 51 },
                        { hcode := 19, key := 19 },
                        { hcode := 83, key := 83 },
                        { hcode := 115, key := 115 }],
                       [{ hcode := 180, key := 180 },
                        { hcode := 148, key := 148 },
                        { hcode := 52, key := 52 },
                        { hcode := 20, key := 20 },
                        { hcode := 84, key := 84 },
                        { hcode := 116, key := 116 }],
                       [{ hcode := 181, key := 181 },
                        { hcode := 149, key := 149 },
                        { hcode := 53, key := 53 },
                        { hcode := 21, key := 21 },
                        { hcode := 85, key := 85 },
                        { hcode := 117, key := 117 }],
                       [{ hcode := 182, key := 182 },
                        { hcode := 150, key := 150 },
                        { hcode := 54, key := 54 },
                        { hcode := 22, key := 22 },
                        { hcode := 86, key := 86 },
                        { hcode := 118, key := 118 }],
                       [{ hcode := 183, key := 183 },
                        { hcode := 151, key := 151 },
                        { hcode := 55, key := 55 },
                        { hcode := 23, key := 23 },
                        { hcode := 87, key := 87 },
                        { hcode := 119, key := 119 }],
                       [{ hcode := 184, key := 184 },
                        { hcode := 152, key := 152 },
                        { hcode := 56, key := 56 },
                        { hcode := 24, key := 24 },
                        { hcode := 88, key := 88 },
                        { hcode := 120, key := 120 }],
                       [{ hcode := 185, key := 185 },
                        { hcode := 153, key := 153 },
                        { hcode := 57, key := 57 },
                        { hcode := 25, key := 25 },
                        { hcode := 89, key := 89 },
                        { hcode := 121, key := 121 }],
                       [{ hcode := 186, key := 186 },
                        { hcode := 154, key := 154 },
                        { hcode := 58, key := 58 },
                        { hcode := 26, key := 26 },
                        { hcode := 90, key := 90 },
                        { hcode := 122, key := 122 }],
                       [{ hcode := 187, key := 187 },
                        { hcode := 155, key := 155 },
                        { hcode := 59, key := 59 },
                        { hcode := 27, key := 27 },
                        { hcode := 91, key := 91 },
                        { hcode := 123, key := 123 }],
                       [{ hcode := 188, key := 188 },
                        { hcode := 156, key := 156 },
                        { hcode := 60, key := 60 },
                        { hcode := 28, key := 28 },
                        { hcode := 92, key := 92 },
                        { hcode := 124, key := 124 }],
                       [{ hcode := 189, key := 189 },
                        { hcode := 157, key := 157 },
                        { hcode := 61, key := 61 },
                        { hcode := 29, key := 29 },
                        { hcode := 93, key := 93 },
                        { hcode := 125, key := 125 }],
                       [{ hcode := 190, key := 190 },
                        { hcode := 158, key := 158 },
                        { hcode := 62, key := 62 },
                        { hcode := 30, key := 30 },
                        { hcode := 94, key := 94 },
                        { hcode := 126, key := 126 }],
                       [{ hcode := 191, key := 191 },
                        { hcode := 159, key := 159 },
                        { hcode := 63, key := 63 },
                        { hcode := 31, key := 31 },
                        { hcode := 95, key := 95 },
                        { hcode := 127, key := 127 }]],
               mask := 31,
               size := 192 },
    older := { tab := none, mask := 0, size := 0 },
    migrate_pos := 15 }

/-- The map state after the first 256 scenario inserts (verified below). -/
def state256 : HMap :=
  { newer := { tab := some [[{ hcode := 64, key := 64 },
                        { hcode := 0, key := 0 },
                        { hcode := 128, key := 128 },
                        { hcode := 192, key := 192 }],
                       [{ hcode := 65, key := 65 },
                        { hcode := 1, key := 1 },
                        { hcode := 129, key := 129 },
                        { hcode := 193, key := 193 }],
                       [{ hcode := 66, key := 66 },
                        { hcode := 2, key := 2 },
                        { hcode := 130, key := 130 },
                        { hcode := 194, key := 194 }],
                       [{ hcode := 67, key := 67 },
                        { hcode := 3, key := 3 },
                        { hcode := 131, key := 131 },
                        { hcode := 195, key := 195 }],
                       [{ hcode := 68, key := 68 },
                        { hcode := 4, key := 4 },
                        { hcode := 132, key := 132 },
                        { hcode := 196, key := 196 }],
                       [{ hcode := 69, key := 69 },
                        { hcode := 5, key := 5 },
                        { hcode := 133, key := 133 },
                        { hcode := 197, key := 197 }],
                       [{ hcode := 70, key := 70 },
                        { hcode := 6, key := 6 },
                        { hcode := 134, key := 134 },
                        { hcode := 198, key := 198 }],
                       [{ hcode := 71, key := 71 },
                        { hcode := 7, key := 7 },
                        { hcode := 135, key := 135 },
                        { hcode := 199, key := 199 }],
                       [{ hcode := 72, key := 72 },
                        { hcode := 8, key := 8 },
                        { hcode := 136, key := 136 },
                        { hcode := 200, key := 200 }],
                       [{ hcode := 73, key := 73 },
                        { hcode := 9, key := 9 },
                        { hcode := 137, key := 137 },
                        { hcode := 201, key := 201 }],
                       [{ hcode := 74, key := 74 },
                        { hcode := 10, key := 10 },
                        { hcode := 138, key := 138 },
                        { hcode := 202, key := 202 }],
                       [{ hcode := 75, key := 75 },
                        { hcode := 11, key := 11 },
                        { hcode := 139, key := 139 },
                        { hcode := 203, key := 203 }],
                       [{ hcode := 76, key := 76 },
                        { hcode := 12, key := 12 },
                        { hcode := 140, key := 140 },
                        { hcode := 204, key := 204 }],
                       [{ hcode := 77, key := 77 },
                        { hcode := 13, key := 13 },
                        { hcode := 141, key := 141 },
                        { hcode := 205, key := 205 }],
                       [{ hcode := 78, key := 78 },
                        { hcode := 14, key := 14 },
                        { hcode := 142, key := 142 },
                        { hcode := 206, key := 206 }],
                       [{ hcode := 79, key := 79 },
                        { hcode := 15, key := 15 },
                        { hcode := 143, key := 143 },
                        { hcode := 207, key := 207 }],
                       [],
                       [],
                       [],
                       [],
                       [],
                       [],
                       [],
                       [],
                       [],
                       [],
                       [],
                       [],
                       [],
                       [],
                       [],
                       [],
                       [{ hcode := 96, key := 96 },
                        { hcode := 32, key := 32 },
                        { hcode := 160, key := 160 },
                        { hcode := 224, key := 224 }],
                       [{ hcode := 97, key := 97 },
                        { hcode := 33, key := 33 },
                        { hcode := 161, key := 161 },
                        { hcode := 225, key := 225 }],
                       [{ hcode := 98, key := 98 },
                        { hcode := 34, key := 34 },
                        { hcode := 162, key := 162 },
                        { hcode := 226, key := 226 }],
                       [{ hcode := 99, key := 99 },
                        { hcode := 35, key := 35 },
                        { hcode := 163, key := 163 },
                        { hcode := 227, key := 227 }],
                       [{ hcode := 100, key := 100 },
                        { hcode := 36, key := 36 },
                        { hcode := 164, key := 164 },
                        { hcode := 228, key := 228 }],
                       [{ hcode := 101, key := 101 },
                        { hcode := 37, key := 37 },
                        { hcode := 165, key := 165 },
                        { hcode := 229, key := 229 }],
                       [{ hcode := 102, key := 102 },
                        { hcode := 38, key := 38 },
                        { hcode := 166, key := 166 },
                        { hcode := 230, key := 230 }],
                       [{ hcode := 103, key := 103 },
                        { hcode := 39, key := 39 },
                        { hcode := 167, key := 167 },
                        { hcode := 231, key := 231 }],
                       [{ hcode := 104, key := 104 },
                        { hcode := 40, key := 40 },
                        { hcode := 168, key := 168 },
                        { hcode := 232, key := 232 }],
                       [{ hcode := 105, key := 105 },
                        { hcode := 41, key := 41 },
                        { hcode := 169, key := 169 },
                        { hcode := 233, key := 233 }],
                       [{ hcode := 106, key := 106 },
                        { hcode := 42, key := 42 },
                        { hcode := 170, key := 170 },
                        { hcode := 234, key := 234 }],
                       [{ hcode := 107, key := 107 },
                        { hcode := 43, key := 43 },
                        { hcode := 171, key := 171 },
                        { hcode := 235, key := 235 }],
                       [{ hcode := 108, key := 108 },
                        { hcode := 44, key := 44 },
                        { hcode := 172, key := 172 },
                        { hcode := 236, key := 236 }],
                       [{ hcode := 109, key := 109 },
                        { hcode := 45, key := 45 },
                        { hcode := 173, key := 173 },
                        { hcode := 237, key := 237 }],
                       [{ hcode := 110, key := 110 },
                        { hcode := 46, key := 46 },
                        { hcode := 174, key := 174 },
                        { hcode := 238, key := 238 }],
                       [{ hcode := 111, key := 111 },
                        { hcode := 47, key := 47 },
                        { hcode := 175, key := 175 },
                        { hcode := 239, key := 239 }],
                       [],
                       [],
                       [],
                       [],
                       [],
                       [],
                       [],
                       [],
                       [],
                       [],
                       [],
                       [],
                       [],
                       [],
                       [],
                       []],
               mask := 63,
               size := 128 },
    older := { tab := some [[],
                       [],
                       [],
                       [],
                       [],
                       [],
                       [],
                       [],
                       [],
                       [],
                       [],
                       [],
                       [],
                       [],
                       [],
                       [],
                       [{ hcode := 240, key := 240 },
                        { hcode := 208, key := 208 },
                        { hcode := 176, key := 176 },
                        { hcode := 144, key := 144 },
                        { hcode := 48, key := 48 },
                        { hcode := 16, key := 16 },
                        { hcode := 80, key := 80 },
                        { hcode := 112, key := 112 }],
                       [{ hcode := 241, key := 241 },
                        { hcode := 209, key := 209 },
                        { hcode := 177, key := 177 },
                        { hcode := 145, key := 145 },
                        { hcode := 49, key := 49 },
                        { hcode := 17, key := 17 },
                        { hcode := 81, key := 81 },
                        { hcode := 113, key := 113 }],
                       [{ hcode := 242, key := 242 },
                        { hcode := 210, key := 210 },
                        { hcode := 178, key := 178 },
                        { hcode := 146, key := 146 },
                        { hcode := 50, key := 50 },
                        { hcode := 18, key := 18 },
                        { hcode := 82, key := 82 },
                        { hcode := 114, key := 114 }],
                       [{ hcode := 243, key := 243 },
                        { hcode := 211, key := 211 },
                        { hcode := 179, key := 179 },
                        { hcode := 147, key := 147 },
                        { hcode := 51, key := 51 },
                        { hcode := 19, key := 19 },
                        { hcode := 83, key := 83 },
                        { hcode := 115, key := 115 }],
                       [{ hcode := 244, key := 244 },
                        { hcode := 212, key := 212 },
                        { hcode := 180, key := 180 },
                        { hcode := 148, key := 148 },
                        { hcode := 52, key := 52 },
                        { hcode := 20, key := 20 },
                        { hcode := 84, key := 84 },
                        { hcode := 116, key := 116 }],
                       [{ hcode := 245, key := 245 },
                        { hcode := 213, key := 213 },
                        { hcode := 181, key := 181 },
                        { hcode := 149, key := 149 },
                        { hcode := 53, key := 53 },
                        { hcode := 21, key := 21 },
                        { hcode := 85, key := 85 },
                        { hcode := 117, key := 117 }],
                       [{ hcode := 246, key := 246 },
                        { hcode := 214, key := 214 },
                        { hcode := 182, key := 182 },
                        { hcode := 150, key := 150 },
                        { hcode := 54, key := 54 },
                        { hcode := 22, key := 22 },
                        { hcode := 86, key := 86 },
                        { hcode := 118, key := 118 }],
                       [{ hcode := 247, key := 247 },
                        { hcode := 215, key := 215 },
                        { hcode := 183, key := 183 },
                        { hcode := 151, key := 151 },
                        { hcode := 55, key := 55 },
                        { hcode := 23, key := 23 },
                        { hcode := 87, key := 87 },
                        { hcode := 119, key := 119 }],
                       [{ hcode := 248, key := 248 },
                        { hcode := 216, key := 216 },
                        { hcode := 184, key := 184 },
                        { hcode := 152, key := 152 },
                        { hcode := 56, key := 56 },
                        { hcode := 24, key := 24 },
                        { hcode := 88, key := 88 },
                        { hcode := 120, key := 120 }],
                       [{ hcode := 249, key := 249 },
                        { hcode := 217, key := 217 },
                        { hcode := 185, key := 185 },
                        { hcode := 153, key := 153 },
                        { hcode := 57, key := 57 },
                        { hcode := 25, key := 25 },
                        { hcode := 89, key := 89 },
                        { hcode := 121, key := 121 }],
                       [{ hcode := 250, key := 250 },
                        { hcode := 218, key := 218 },
                        { hcode := 186, key := 186 },
                        { hcode := 154, key := 154 },
                        { hcode := 58, key := 58 },
                        { hcode := 26, key := 26 },
                        { hcode := 90, key := 90 },
                        { hcode := 122, key := 122 }],
                       [{ hcode := 251, key := 251 },
                        { hcode := 219, key := 219 },
                        { hcode := 187, key := 187 },
                        { hcode := 155, key := 155 },
                        { hcode := 59, key := 59 },
                        { hcode := 27, key := 27 },
                        { hcode := 91, key := 91 },
                        { hcode := 123, key := 123 }],
                       [{ hcode := 252, key := 252 },
                        { hcode := 220, key := 220 },
                        { hcode := 188, key := 188 },
                        { hcode := 156, key := 156 },
                        { hcode := 60, key := 60 },
                        { hcode := 28, key := 28 },
                        { hcode := 92, key := 92 },
                        { hcode := 124, key := 124 }],
                       [{ hcode := 253, key := 253 },
                        { hcode := 221, key := 221 },
                        { hcode := 189, key := 189 },
                        { hcode := 157, key := 157 },
                        { hcode := 61, key := 61 },
                        { hcode := 29, key := 29 },
                        { hcode := 93, key := 93 },
                        { hcode := 125, key := 125 }],
                       [{ hcode := 254, key := 254 },
                        { hcode := 222, key := 222 },
                        { hcode := 190, key := 190 },
                        { hcode := 158, key := 158 },
                        { hcode := 62, key := 62 },
                        { hcode := 30, key := 30 },
                        { hcode := 94, key := 94 },
                        { hcode := 126, key := 126 }],
                       [{ hcode := 255, key := 255 },
                        { hcode := 223, key := 223 },
                        { hcode := 191, key := 191 },
                        { hcode := 159, key := 159 },
                        { hcode := 63, key := 63 },
                        { hcode := 31, key := 31 },
                        { hcode := 95, key := 95 },
                        { hcode := 127, key := 127 }]],
               mask := 31,
               size := 128 },
    migrate_pos := 15 }

/-- Well-formedness of one table: an uninitialized table is all zero; an
initialized one has `mask + 1` slots (a nonzero capacity, at least 4 at
every call site), a count equal to the total chain length, and every node
sitting in the slot selected by its hash code. -/
structure TabWF (t : HTab) : Prop where
  maskZero : t.tab = none → t.mask = 0
  sizeZero : t.tab = none → t.size = 0
  len : ∀ a, t.tab = some a → a.length = t.mask + 1
  maskPos : ∀ a, t.tab = some a → t.mask ≠ 0
  sizeEq : ∀ a, t.tab = some a → t.size = totalLen a
  slotOk : ∀ a, t.tab = some a → ∀ i, ∀ n ∈ a.getD i [], n.hcode &&& t.mask = i

/-- Well-formedness of the whole map: both tables well formed, the active
table initialized whenever the retiring one is, and — while the retiring
table still holds nodes — the migration cursor within the retiring array
with every slot strictly below it already drained. -/
structure WF (m : HMap) : Prop where
  newerWF : TabWF m.newer
  olderWF : TabWF m.older
  olderNewer : m.older.tab ≠ none → m.newer.tab ≠ none
  cursorLe : 0 < m.older.size → m.migrate_pos ≤ m.older.mask
  belowEmpty : ∀ a, m.older.tab = some a → ∀ i, i < m.migrate_pos → a.getD i [] = []

theorem insertMany_add (b a : Nat) :
    insertMany (a + b) = insertRange (insertMany a) a b := by
  induction b generalizing a with
  | zero => rfl
  | succ b ih =>
    have h1 : insertRange (insertMany a) a (b + 1)
        = insertRange (insertMany (a + 1)) (a + 1) b := rfl
    rw [h1, ← ih (a + 1)]
    congr 1
    omega

theorem insertMany64_eq : insertMany 64 = state64 := by decide

theorem insertMany128_eq : insertMany 128 = state128 := by
  rw [show (128 : Nat) = 64 + 64 from rfl, insertMany_add, insertMany64_eq]
  decide

theorem insertMany192_eq : insertMany 192 = state192 := by
  rw [show (192 : Nat) = 128 + 64 from rfl, insertMany_add, insertMany128_eq]
  decide

theorem insertMany256_eq : insertMany 256 = state256 := by
  rw [show (256 : Nat) = 192 + 64 from rfl, insertMany_add, insertMany192_eq]
  decide

theorem getD_set_self {α : Type} (a : List α) (i : Nat) (x d : α) (h : i < a.length) :
    (a.set i x).getD i d = x := by
  rw [List.getD_eq_getElem _ _ (by simpa using h)]
  exact List.getElem_set_self _

theorem getD_set_ne {α : Type} (a : List α) (i j : Nat) (x d : α) (h : i ≠ j) :
    (a.set i x).getD j d = a.getD j d := by
  rw [List.getD_eq_getElem?_getD, List.getD_eq_getElem?_getD, List.getElem?_set_ne h]

theorem totalLen_set (a : List (List HNode)) (i : Nat) (L : List HNode)
    (h : i < a.length) :
    totalLen (a.set i L) + (a.getD i []).length = totalLen a + L.length := by
  induction a generalizing i with
  | nil => simp at h
  | cons c t ih =>
    cases i with
    | zero => simp [totalLen]; omega
    | succ i =>
      have hi : i < t.length := by simpa using h
      have := ih i hi
      simp only [List.set_cons_succ, totalLen, List.map_cons, List.sum_cons,
        List.getD_cons_succ] at *
      omega

theorem flatten_set_cons_perm (a : List (List HNode)) (i : Nat) (x : HNode)
    (h : i < a.length) :
    (a.set i (x :: a.getD i [])).flatten.Perm (x :: a.flatten) := by
  induction a generalizing i with
  | nil => simp at h
  | cons c t ih =>
    cases i with
    | zero => simp
    | succ i =>
      have hi : i < t.length := by simpa using h
      simp only [List.set_cons_succ, List.flatten_cons, List.getD_cons_succ]
      exact ((ih i hi).append_left c).trans List.perm_middle

theorem flatten_set_remove_perm (a : List (List HNode)) (i : Nat) (x : HNode)
    (L : List HNode) (h : i < a.length) (hc : (a.getD i []).Perm (x :: L)) :
    a.flatten.Perm (x :: (a.set i L).flatten) := by
  induction a generalizing i with
  | nil => simp at h
  | cons c t ih =>
    cases i with
    | zero =>
      simp only [List.getD_cons_zero] at hc
      exact hc.append_right t.flatten
    | succ i =>
      have hi : i < t.length := by simpa using h
      simp only [List.getD_cons_succ] at hc
      simp only [List.set_cons_succ, List.flatten_cons]
      exact ((ih i hi hc).append_left c).trans List.perm_middle

theorem exists_slot_of_totalLen_pos (a : List (List HNode)) (h : 0 < totalLen a) :
    ∃ j, j < a.length ∧ a.getD j [] ≠ [] := by
  induction a with
  | nil => simp [totalLen] at h
  | cons c t ih =>
    by_cases hc : c = []
    · subst hc
      have ht : 0 < totalLen t := by simpa [totalLen] using h
      obtain ⟨j, hj, hne⟩ := ih ht
      exact ⟨j + 1, by simpa using hj, by simpa [List.getD_cons_succ] using hne⟩
    · exact ⟨0, by simp, by simpa [List.getD_cons_zero] using hc⟩

theorem range_map_getD (a : List (List HNode)) :
    (List.range a.length).map (fun i => a.getD i []) = a := by
  induction a with
  | nil => simp
  | cons c t ih =>
    rw [List.length_cons, List.range_succ_eq_map, List.map_cons, List.map_map]
    have h2 : ((fun i => (c :: t).getD i []) ∘ Nat.succ) = fun i => t.getD i [] := by
      funext i
      simp [List.getD_cons_succ]
    rw [h2, ih]
    simp [List.getD_cons_zero]

theorem mem_flatten_of_mem_getD (a : List (List HNode)) (i : Nat) (x : HNode)
    (hx : x ∈ a.getD i []) : x ∈ a.flatten := by
  by_cases h : i < a.length
  · refine List.mem_flatten.2 ⟨a.getD i [], ?_, hx⟩
    rw [List.getD_eq_getElem _ _ h]
    exact List.getElem_mem h
  · rw [List.getD_eq_getElem?_getD, List.getElem?_eq_none (by omega)] at hx
    simp at hx

theorem length_flatten_eq_totalLen (a : List (List HNode)) :
    a.flatten.length = totalLen a := by
  simp [totalLen, List.length_flatten]

theorem findFirst_eq_some {key : HNode} {eqf : HNode → HNode → Bool}
    {l : List HNode} {r : HNode} (h : findFirst key eqf l = some r) :
    r ∈ l ∧ nodeMatch key eqf r = true := by
  induction l with
  | nil => simp [findFirst] at h
  | cons cur rest ih =>
    by_cases hm : nodeMatch key eqf cur
    · simp only [findFirst, if_pos hm, Option.some.injEq] at h
      subst h
      exact ⟨List.mem_cons_self _ _, hm⟩
    · simp only [findFirst, if_neg hm] at h
      obtain ⟨hmem, hmt⟩ := ih h
      exact ⟨List.mem_cons_of_mem _ hmem, hmt⟩

theorem findFirst_eq_none_iff {key : HNode} {eqf : HNode → HNode → Bool}
    {l : List HNode} :
    findFirst key eqf l = none ↔ ∀ x ∈ l, nodeMatch key eqf x = false := by
  induction l with
  | nil => simp [findFirst]
  | cons cur rest ih =>
    by_cases hm : nodeMatch key eqf cur
    · simp [findFirst, if_pos hm, hm]
    · simp only [findFirst, if_neg hm, ih, List.mem_cons]
      constructor
      · rintro h x (rfl | hx)
        · exact Bool.eq_false_iff.2 hm
        · exact h x hx
      · intro h x hx
        exact h x (Or.inr hx)

theorem findFirst_isSome_of_mem {key : HNode} {eqf : HNode → HNode → Bool}
    {l : List HNode} {x : HNode} (hx : x ∈ l) (hm : nodeMatch key eqf x = true) :
    ∃ r, findFirst key eqf l = some r := by
  cases h : findFirst key eqf l with
  | some r => exact ⟨r, rfl⟩
  | none =>
    have := (findFirst_eq_none_iff.1 h) x hx
    rw [hm] at this
    cases this

theorem removeFirstMatch_eq_none_iff {key : HNode} {eqf : HNode → HNode → Bool}
    {l : List HNode} :
    removeFirstMatch key eqf l = none ↔ findFirst key eqf l = none := by
  induction l with
  | nil => simp [removeFirstMatch, findFirst]
  | cons cur rest ih =>
    by_cases hm : nodeMatch key eqf cur
    · simp [removeFirstMatch, findFirst, if_pos hm]
    · simp only [removeFirstMatch, findFirst, if_neg hm]
      cases h : removeFirstMatch key eqf rest with
      | some p => simp [← ih, h]
      | none => simp [← ih, h]

theorem removeFirstMatch_eq_some {key : HNode} {eqf : HNode → HNode → Bool}
    {l : List HNode} {n : HNode} {rest : List HNode}
    (h : removeFirstMatch key eqf l = some (n, rest)) :
    l.Perm (n :: rest) ∧ nodeMatch key eqf n = true := by
  induction l generalizing rest with
  | nil => simp [removeFirstMatch] at h
  | cons cur tl ih =>
    by_cases hm : nodeMatch key eqf cur
    · simp only [removeFirstMatch, if_pos hm, Option.some.injEq, Prod.mk.injEq] at h
      obtain ⟨rfl, rfl⟩ := h
      exact ⟨List.Perm.refl _, hm⟩
    · simp only [removeFirstMatch, if_neg hm] at h
      cases hr : removeFirstMatch key eqf tl with
      | none => rw [hr] at h; cases h
      | some p =>
        obtain ⟨n', rest'⟩ := p
        rw [hr] at h
        simp only [Option.some.injEq, Prod.mk.injEq] at h
        obtain ⟨rfl, rfl⟩ := h
        obtain ⟨hp, hmt⟩ := ih hr
        exact ⟨(hp.cons cur).trans (List.Perm.swap n' cur rest'), hmt⟩

theorem tabWF_emptyTab : TabWF emptyTab := by
  constructor <;> intro h <;> simp_all [emptyTab]

theorem tabWF_init (n : Nat) (h2 : 2 ≤ n) : TabWF (HTab.init n) := by
  refine ⟨fun h => ?_, fun h => ?_, fun a h => ?_, fun a h => ?_,
    fun a h => ?_, fun a h => ?_⟩
  · simp [HTab.init] at h
  · simp [HTab.init] at h
  · simp only [HTab.init, Option.some.injEq] at h
    subst h
    simp only [HTab.init, List.length_replicate]
    omega
  · simp only [HTab.init]
    omega
  · simp only [HTab.init, Option.some.injEq] at h
    subst h
    simp [HTab.init, totalLen]
  · intro i x hx
    simp only [HTab.init, Option.some.injEq] at h
    subst h
    rw [List.getD_eq_getElem?_getD, List.getElem?_replicate] at hx
    by_cases hi : i < n <;> simp [hi] at hx

theorem insert_tab_some {t : HTab} {a : List (List HNode)} (h : t.tab = some a)
    (node : HNode) :
    (t.insert node).tab
        = some (a.set (t.get_position node.hcode)
            (node :: a.getD (t.get_position node.hcode) []))
      ∧ (t.insert node).size = t.size + 1 ∧ (t.insert node).mask = t.mask := by
  simp [HTab.insert, h]

theorem insert_tab_isSome {t : HTab} (node : HNode) (h : t.tab.isSome) :
    (t.insert node).tab.isSome := by
  cases ht : t.tab with
  | none => rw [ht] at h; cases h
  | some a => simp [HTab.insert, ht]

theorem tabWF_insert {t : HTab} (ht : TabWF t) (node : HNode) :
    TabWF (t.insert node) := by
  cases htab : t.tab with
  | none =>
    have : t.insert node = t := by simp [HTab.insert, htab]
    rwa [this]
  | some a =>
    obtain ⟨h1, h2, h3⟩ := insert_tab_some htab node
    have hposle : t.get_position node.hcode < a.length := by
      have := ht.len a htab
      have h4 : node.hcode &&& t.mask ≤ t.mask := Nat.and_le_right
      simp only [HTab.get_position]
      omega
    refine ⟨fun hb => ?_, fun hb => ?_, fun b hb => ?_, fun b hb => ?_,
      fun b hb => ?_, fun b hb => ?_⟩
    · rw [h1] at hb; cases hb
    · rw [h1] at hb; cases hb
    · rw [h1] at hb
      cases hb
      rw [List.length_set, h3]
      exact ht.len a htab
    · rw [h3]; exact ht.maskPos a htab
    · rw [h1] at hb
      cases hb
      rw [h2, ht.sizeEq a htab]
      have := totalLen_set a (t.get_position node.hcode)
        (node :: a.getD (t.get_position node.hcode) []) hposle
      simp only [List.length_cons] at this
      omega
    · intro i x hx
      rw [h1] at hb
      cases hb
      rw [h3]
      by_cases hi : t.get_position node.hcode = i
      · subst hi
        rw [getD_set_self _ _ _ _ hposle] at hx
        rcases List.mem_cons.1 hx with rfl | hx'
        · rfl
        · exact ht.slotOk a htab _ x hx'
      · rw [getD_set_ne _ _ _ _ _ hi] at hx
        exact ht.slotOk a htab i x hx

theorem nodes_insert_perm {t : HTab} (ht : TabWF t) (node : HNode)
    (hsome : t.tab.isSome) :
    (t.insert node).nodes.Perm (node :: t.nodes) := by
  cases htab : t.tab with
  | none => rw [htab] at hsome; cases hsome
  | some a =>
    obtain ⟨h1, -, -⟩ := insert_tab_some htab node
    have hposle : t.get_position node.hcode < a.length := by
      have := ht.len a htab
      have h4 : node.hcode &&& t.mask ≤ t.mask := Nat.and_le_right
      simp only [HTab.get_position]
      omega
    have := flatten_set_cons_perm a (t.get_position node.hcode) node hposle
    simpa [HTab.nodes, h1, htab] using this

theorem nodes_length {t : HTab} (ht : TabWF t) : t.nodes.length = t.size := by
  cases htab : t.tab with
  | none => simp [HTab.nodes, htab, ht.sizeZero htab]
  | some a =>
    rw [HTab.nodes, htab, Option.getD_some, length_flatten_eq_totalLen,
      ht.sizeEq a htab]

theorem removeMatch_spec {t : HTab} {key : HNode} {eqf : HNode → HNode → Bool}
    {n : HNode} {t' : HTab} (h : t.removeMatch key eqf = some (n, t')) :
    ∃ a rest, t.tab = some a
      ∧ removeFirstMatch key eqf (a.getD (t.get_position key.hcode) []) = some (n, rest)
      ∧ t' = { t with tab := some (a.set (t.get_position key.hcode) rest),
                      size := t.size - 1 } := by
  cases htab : t.tab with
  | none => simp [HTab.removeMatch, htab] at h
  | some a =>
    simp only [HTab.removeMatch, htab] at h
    cases hr : removeFirstMatch key eqf (a.getD (t.get_position key.hcode) []) with
    | none => rw [hr] at h; cases h
    | some p =>
      obtain ⟨n', rest⟩ := p
      rw [hr] at h
      simp only [Option.some.injEq, Prod.mk.injEq] at h
      obtain ⟨rfl, rfl⟩ := h
      exact ⟨a, rest, rfl, hr, rfl⟩

theorem lookup_finds {t : HTab} (ht : TabWF t) {x q : HNode}
    {eqf : HNode → HNode → Bool} (hx : x ∈ t.nodes) (hh : q.hcode = x.hcode)
    (hm : nodeMatch q eqf x = true) :
    ∃ r, t.lookup q eqf = some r ∧ nodeMatch q eqf r = true := by
  cases htab : t.tab with
  | none => rw [HTab.nodes, htab] at hx; simp at hx
  | some a =>
    rw [HTab.nodes, htab, Option.getD_some] at hx
    obtain ⟨chain, hchain, hxc⟩ := List.mem_flatten.1 hx
    obtain ⟨i, hi, hgi⟩ := List.mem_iff_getElem.1 hchain
    have hgd : a.getD i [] = chain := by rw [List.getD_eq_getElem _ _ hi, hgi]
    have hslot : x.hcode &&& t.mask = i :=
      ht.slotOk a htab i x (by rw [hgd]; exact hxc)
    have hqpos : t.get_position q.hcode = i := by
      rw [HTab.get_position, hh, hslot]
    obtain ⟨r, hr⟩ :=
      findFirst_isSome_of_mem (l := a.getD i []) (by rw [hgd]; exact hxc) hm
    refine ⟨r, ?_, (findFirst_eq_some hr).2⟩
    simp only [HTab.lookup, htab, hqpos]
    exact hr

theorem removeMatch_eq_none_of_no_match {t : HTab} {q : HNode}
    {eqf : HNode → HNode → Bool} (h : ∀ x ∈ t.nodes, nodeMatch q eqf x = false) :
    t.removeMatch q eqf = none := by
  cases htab : t.tab with
  | none => simp [HTab.removeMatch, htab]
  | some a =>
    have hnone : removeFirstMatch q eqf (a.getD (t.get_position q.hcode) []) = none := by
      rw [removeFirstMatch_eq_none_iff, findFirst_eq_none_iff]
      intro x hx
      refine h x ?_
      rw [HTab.nodes, htab, Option.getD_some]
      exact mem_flatten_of_mem_getD a _ x hx
    simp only [HTab.removeMatch, htab]
    rw [hnone]

theorem wf_empty : WF HMap.empty := by
  refine ⟨tabWF_emptyTab, tabWF_emptyTab, fun h => ?_, fun h => ?_, fun a h => ?_⟩
  · exact absurd rfl h
  · simp [HMap.empty, emptyTab] at h
  · simp [HMap.empty, emptyTab] at h


theorem help_loop_wf : ∀ (fuel : Nat) (m : HMap) (nwork : Nat), WF m →
    WF (m.help_loop nwork fuel)
    ∧ (m.help_loop nwork fuel).contents.Perm m.contents
    ∧ (m.help_loop nwork fuel).newer.size + (m.help_loop nwork fuel).older.size
        = m.newer.size + m.older.size := by
  intro fuel
  induction fuel with
  | zero => exact fun m nwork hm => ⟨hm, List.Perm.refl _, rfl⟩
  | succ fuel ih =>
    intro m nwork hm
    by_cases hcond : nwork < kRehasingWork ∧ 0 < m.older.size
    · have hotab : m.older.tab ≠ none := fun hn => by
        have := hm.olderWF.sizeZero hn
        omega
      obtain ⟨a, ha⟩ := Option.ne_none_iff_exists'.1 hotab
      have hlen := hm.olderWF.len a ha
      have hsizeEq := hm.olderWF.sizeEq a ha
      cases hchain : a.getD m.migrate_pos [] with
      | nil =>
        have hstep : m.help_loop nwork (fuel + 1)
            = HMap.help_loop { m with migrate_pos := m.migrate_pos + 1 } nwork fuel := by
          rw [HMap.help_loop, if_pos hcond]
          simp only [ha, Option.getD_some, hchain]
        have hwf' : WF { m with migrate_pos := m.migrate_pos + 1 } := by
          refine ⟨hm.newerWF, hm.olderWF, hm.olderNewer, fun hsz => ?_, fun b hb i hi => ?_⟩
          · have hsz' : 0 < m.older.size := hsz
            show m.migrate_pos + 1 ≤ m.older.mask
            obtain ⟨j, hj, hjne⟩ := exists_slot_of_totalLen_pos a (by omega)
            have hjge : m.migrate_pos + 1 ≤ j := by
              by_contra hlt
              have hcases : j < m.migrate_pos ∨ j = m.migrate_pos := by omega
              rcases hcases with hc | hc
              · exact hjne (hm.belowEmpty a ha j hc)
              · subst hc; exact hjne hchain
            omega
          · have hb' : m.older.tab = some b := hb
            have hi' : i < m.migrate_pos + 1 := hi
            have hba : b = a := by
              rw [ha] at hb'
              exact (Option.some.inj hb').symm
            subst hba
            have hcases : i < m.migrate_pos ∨ i = m.migrate_pos := by omega
            rcases hcases with hc | hc
            · exact hm.belowEmpty b ha i hc
            · subst hc; exact hchain
        obtain ⟨hw, hp, hs⟩ := ih { m with migrate_pos := m.migrate_pos + 1 } nwork hwf'
        rw [hstep]
        exact ⟨hw, hp, hs⟩
      | cons node rest =>
        have hposlt : m.migrate_pos < a.length := by
          have := hm.cursorLe hcond.2
          omega
        have hnewer_some : m.newer.tab ≠ none := hm.olderNewer hotab
        obtain ⟨b, hb⟩ := Option.ne_none_iff_exists'.1 hnewer_some
        have hstep : m.help_loop nwork (fuel + 1)
            = HMap.help_loop { m with older := { m.older with tab := some (a.set m.migrate_pos rest), size := m.older.size - 1 }, newer := m.newer.insert node } (nwork + 1) fuel := by
          rw [HMap.help_loop, if_pos hcond]
          simp only [ha, Option.getD_some, hchain]
        have hwf' : WF { m with older := { m.older with tab := some (a.set m.migrate_pos rest), size := m.older.size - 1 }, newer := m.newer.insert node } := by
          refine ⟨tabWF_insert hm.newerWF node, ?_, fun _ => ?_, fun hsz => ?_,
            fun c hc i hi => ?_⟩
          · refine ⟨fun h => ?_, fun h => ?_, fun c hc => ?_, fun c hc => ?_,
              fun c hc => ?_, fun c hc => ?_⟩
            · exact absurd (h : some (a.set m.migrate_pos rest) = none) (by simp)
            · exact absurd (h : some (a.set m.migrate_pos rest) = none) (by simp)
            · obtain rfl := Option.some.inj (hc : some (a.set m.migrate_pos rest) = some c)
              show (a.set m.migrate_pos rest).length = m.older.mask + 1
              rw [List.length_set]
              exact hm.olderWF.len a ha
            · exact hm.olderWF.maskPos a ha
            · obtain rfl := Option.some.inj (hc : some (a.set m.migrate_pos rest) = some c)
              show m.older.size - 1 = totalLen (a.set m.migrate_pos rest)
              have := totalLen_set a m.migrate_pos rest hposlt
              rw [hchain] at this
              simp only [List.length_cons] at this
              omega
            · intro i x hx
              obtain rfl := Option.some.inj (hc : some (a.set m.migrate_pos rest) = some c)
              show x.hcode &&& m.older.mask = i
              by_cases hieq : m.migrate_pos = i
              · subst hieq
                rw [getD_set_self _ _ _ _ hposlt] at hx
                refine hm.olderWF.slotOk a ha m.migrate_pos x ?_
                rw [hchain]
                exact List.mem_cons_of_mem _ hx
              · rw [getD_set_ne _ _ _ _ _ hieq] at hx
                exact hm.olderWF.slotOk a ha i x hx
          · show (m.newer.insert node).tab ≠ none
            have := insert_tab_isSome node (by rw [hb]; rfl)
            rw [Option.isSome_iff_ne_none] at this
            exact this
          · show m.migrate_pos ≤ m.older.mask
            exact hm.cursorLe hcond.2
          · obtain rfl := Option.some.inj (hc : some (a.set m.migrate_pos rest) = some c)
            have hi' : i < m.migrate_pos := hi
            have hine : m.migrate_pos ≠ i := by omega
            rw [getD_set_ne _ _ _ _ _ hine]
            exact hm.belowEmpty a ha i hi'
        obtain ⟨hw, hp, hs⟩ := ih _ (nwork + 1) hwf'
        rw [hstep]
        refine ⟨hw, ?_, ?_⟩
        · refine hp.trans ?_
          have cnewer : (m.newer.insert node).nodes.Perm (node :: m.newer.nodes) :=
            nodes_insert_perm hm.newerWF node (by rw [hb]; rfl)
          have colder : m.older.nodes.Perm
              (node :: ((a.set m.migrate_pos rest).flatten)) := by
            rw [HTab.nodes, ha, Option.getD_some]
            exact flatten_set_remove_perm a m.migrate_pos node rest hposlt
              (by rw [hchain])
          show ((m.newer.insert node).nodes
              ++ (HTab.mk (some (a.set m.migrate_pos rest)) m.older.mask (m.older.size - 1)).nodes).Perm
            (m.newer.nodes ++ m.older.nodes)
          have holdnodes :
              (HTab.mk (some (a.set m.migrate_pos rest)) m.older.mask (m.older.size - 1)).nodes
                = (a.set m.migrate_pos rest).flatten := by
            simp [HTab.nodes]
          rw [holdnodes]
          refine ((cnewer.append_right _).trans ?_)
          refine List.Perm.symm ?_
          exact (colder.append_left m.newer.nodes).trans List.perm_middle
        · obtain ⟨-, hbs, -⟩ := insert_tab_some hb node
          rw [hs]
          show (m.newer.insert node).size + (m.older.size - 1) = m.newer.size + m.older.size
          rw [hbs]
          omega
    · have hstop : m.help_loop nwork (fuel + 1) = m := by
        rw [HMap.help_loop, if_neg hcond]
      rw [hstop]
      exact ⟨hm, List.Perm.refl _, rfl⟩

theorem nodes_nil_of_size_zero {t : HTab} (ht : TabWF t) (h : t.size = 0) :
    t.nodes = [] := by
  have hl := nodes_length ht
  rw [h] at hl
  exact List.eq_nil_of_length_eq_zero hl

theorem help_rehashing_eq (m : HMap) :
    m.help_rehashing
      = if (m.help_loop 0 (helpFuel m)).older.size = 0
            ∧ (m.help_loop 0 (helpFuel m)).older.tab.isSome
        then { m.help_loop 0 (helpFuel m) with older := emptyTab }
        else m.help_loop 0 (helpFuel m) := rfl

theorem help_rehashing_wf {m : HMap} (hm : WF m) :
    WF m.help_rehashing ∧ m.help_rehashing.contents.Perm m.contents
      ∧ m.help_rehashing.newer.size + m.help_rehashing.older.size
          = m.newer.size + m.older.size := by
  obtain ⟨hwf1, hperm1, hsz1⟩ := help_loop_wf (helpFuel m) m 0 hm
  rw [help_rehashing_eq]
  by_cases hc : (m.help_loop 0 (helpFuel m)).older.size = 0
      ∧ (m.help_loop 0 (helpFuel m)).older.tab.isSome
  · rw [if_pos hc]
    have hnil := nodes_nil_of_size_zero hwf1.olderWF hc.1
    refine ⟨⟨hwf1.newerWF, tabWF_emptyTab, fun h => ?_, fun h => ?_, fun a h => ?_⟩,
      ?_, ?_⟩
    · exact absurd rfl h
    · simp [emptyTab] at h
    · simp [emptyTab] at h
    · refine List.Perm.trans ?_ hperm1
      show ((m.help_loop 0 (helpFuel m)).newer.nodes ++ emptyTab.nodes).Perm
        ((m.help_loop 0 (helpFuel m)).newer.nodes ++ (m.help_loop 0 (helpFuel m)).older.nodes)
      rw [hnil]
      rfl
    · show (m.help_loop 0 (helpFuel m)).newer.size + emptyTab.size
          = m.newer.size + m.older.size
      have : emptyTab.size = 0 := rfl
      omega
  · rw [if_neg hc]
    exact ⟨hwf1, hperm1, hsz1⟩

theorem insertNode_older (m : HMap) (node : HNode) :
    (m.insertNode node).older = m.older ∧ (m.insertNode node).migrate_pos = m.migrate_pos := by
  rw [HMap.insertNode]
  by_cases h : m.newer.tab.isNone <;> simp [h]

theorem insertNode_newer_isSome (m : HMap) (node : HNode) :
    (m.insertNode node).newer.tab.isSome := by
  rw [HMap.insertNode]
  by_cases h : m.newer.tab.isNone
  · simp only [h, if_pos]
    exact insert_tab_isSome node (by simp [HTab.init])
  · simp only [h, if_neg, Bool.false_eq_true, not_false_iff]
    refine insert_tab_isSome node ?_
    cases htab : m.newer.tab with
    | none => rw [htab] at h; simp at h
    | some a => simp [htab]

theorem wf_insertNode {m : HMap} (hm : WF m) (node : HNode) :
    WF (m.insertNode node) := by
  obtain ⟨ho, hp⟩ := insertNode_older m node
  have hnewWF : TabWF (m.insertNode node).newer := by
    rw [HMap.insertNode]
    by_cases h : m.newer.tab.isNone
    · simp only [h, if_pos]
      exact tabWF_insert (tabWF_init 4 (by omega)) node
    · simp only [h, if_neg, Bool.false_eq_true, not_false_iff]
      exact tabWF_insert hm.newerWF node
  refine ⟨hnewWF, ?_, ?_, ?_, ?_⟩
  · rw [ho]; exact hm.olderWF
  · intro h
    have := insertNode_newer_isSome m node
    rwa [Option.isSome_iff_ne_none] at this
  · rw [ho, hp]; exact hm.cursorLe
  · rw [ho, hp]; exact hm.belowEmpty

theorem wf_trigger {m : HMap} (hm : WF m) :
    WF m.trigger_rehashing := by
  refine ⟨?_, ?_, fun _ => ?_, fun _ => ?_, fun a h i hi => ?_⟩
  · show TabWF (HTab.init ((m.newer.mask + 1) * 2))
    exact tabWF_init _ (by omega)
  · exact hm.newerWF
  · show (HTab.init ((m.newer.mask + 1) * 2)).tab ≠ none
    simp [HTab.init]
  · show (0 : Nat) ≤ m.newer.mask
    omega
  · have hi' : i < 0 := hi
    exact absurd hi' (by omega)

theorem wf_insert {m : HMap} (hm : WF m) (node : HNode) :
    WF (m.insert node) := by
  rw [HMap.insert]
  by_cases h1 : (m.insertNode node).older.tab.isNone
  · by_cases h2 : ((m.insertNode node).newer.mask + 1) * kMaxLoadFactor
        ≤ (m.insertNode node).newer.size
    · simp only [h1, h2, if_pos]
      exact (help_rehashing_wf (wf_trigger (wf_insertNode hm node))).1
    · simp only [h1, if_pos, if_neg h2]
      exact (help_rehashing_wf (wf_insertNode hm node)).1
  · simp only [h1, Bool.false_eq_true, if_neg, not_false_iff]
    exact (help_rehashing_wf (wf_insertNode hm node)).1

theorem wf_lookup {m : HMap} (hm : WF m) (key : HNode) (eqf : HNode → HNode → Bool) :
    WF (m.lookup key eqf).1 := by
  rw [HMap.lookup]
  cases h : (m.help_rehashing).newer.lookup key eqf with
  | some n => exact (help_rehashing_wf hm).1
  | none => exact (help_rehashing_wf hm).1

theorem tabWF_removeMatch {t : HTab} (ht : TabWF t) {key : HNode}
    {eqf : HNode → HNode → Bool} {n : HNode} {t' : HTab}
    (h : t.removeMatch key eqf = some (n, t')) :
    TabWF t' ∧ t.nodes.Perm (n :: t'.nodes) ∧ t.size = t'.size + 1
      ∧ t'.mask = t.mask ∧ t'.tab.isSome := by
  obtain ⟨a, rest, hta, hr, ht'⟩ := removeMatch_spec h
  obtain ⟨hperm, hmt⟩ := removeFirstMatch_eq_some hr
  have hchne : a.getD (t.get_position key.hcode) [] ≠ [] := by
    intro hnil
    rw [hnil] at hr
    simp [removeFirstMatch] at hr
  have hposlt : t.get_position key.hcode < a.length := by
    by_contra hge
    rw [List.getD_eq_getElem?_getD, List.getElem?_eq_none (by omega)] at hchne
    simp at hchne
  have hchainlen : (a.getD (t.get_position key.hcode) []).length = rest.length + 1 := by
    simpa using hperm.length_eq
  have hsizeEq := ht.sizeEq a hta
  have htl := totalLen_set a (t.get_position key.hcode) rest hposlt
  have hszpos : 0 < t.size := by
    have hmem : 0 < totalLen a := by
      by_contra hz
      have : totalLen (a.set (t.get_position key.hcode) rest) + rest.length + 1
          = totalLen a + rest.length := by omega
      omega
    omega
  subst ht'
  refine ⟨⟨fun hb => ?_, fun hb => ?_, fun c hc => ?_, fun c hc => ?_,
    fun c hc => ?_, fun c hc => ?_⟩, ?_, ?_, rfl, by simp⟩
  · exact absurd (hb : some (a.set (t.get_position key.hcode) rest) = none) (by simp)
  · exact absurd (hb : some (a.set (t.get_position key.hcode) rest) = none) (by simp)
  · obtain rfl := Option.some.inj (hc : some (a.set (t.get_position key.hcode) rest) = some c)
    show (a.set (t.get_position key.hcode) rest).length = t.mask + 1
    rw [List.length_set]
    exact ht.len a hta
  · exact ht.maskPos a hta
  · obtain rfl := Option.some.inj (hc : some (a.set (t.get_position key.hcode) rest) = some c)
    show t.size - 1 = totalLen (a.set (t.get_position key.hcode) rest)
    omega
  · intro i x hx
    obtain rfl := Option.some.inj (hc : some (a.set (t.get_position key.hcode) rest) = some c)
    show x.hcode &&& t.mask = i
    by_cases hieq : t.get_position key.hcode = i
    · subst hieq
      rw [getD_set_self _ _ _ _ hposlt] at hx
      refine ht.slotOk a hta _ x ?_
      exact (hperm.mem_iff).2 (List.mem_cons_of_mem _ hx)
    · rw [getD_set_ne _ _ _ _ _ hieq] at hx
      exact ht.slotOk a hta i x hx
  · show t.nodes.Perm (n :: (HTab.mk (some (a.set (t.get_position key.hcode) rest)) t.mask (t.size - 1)).nodes)
    have h1 : t.nodes = a.flatten := by rw [HTab.nodes, hta, Option.getD_some]
    have h2 : (HTab.mk (some (a.set (t.get_position key.hcode) rest)) t.mask (t.size - 1)).nodes
        = (a.set (t.get_position key.hcode) rest).flatten := by
      simp [HTab.nodes]
    rw [h1, h2]
    exact flatten_set_remove_perm a _ n rest hposlt hperm
  · show t.size = t.size - 1 + 1
    omega

theorem wf_hm_delete {m : HMap} (hm : WF m) (key : HNode)
    (eqf : HNode → HNode → Bool) : WF (m.hm_delete key eqf).1 := by
  rw [HMap.hm_delete]
  have h1 := (help_rehashing_wf hm).1
  cases hn : (m.help_rehashing).newer.removeMatch key eqf with
  | some p =>
    obtain ⟨n, t'⟩ := p
    obtain ⟨ht', -, -, -, hsome'⟩ := tabWF_removeMatch h1.newerWF hn
    refine ⟨ht', h1.olderWF, fun _ => ?_, h1.cursorLe, h1.belowEmpty⟩
    rwa [← Option.isSome_iff_ne_none]
  | none =>
    cases ho : (m.help_rehashing).older.removeMatch key eqf with
    | some p =>
      obtain ⟨n, t'⟩ := p
      obtain ⟨a, rest, hta, hr, ht'eq⟩ := removeMatch_spec ho
      obtain ⟨ht', -, hsz, hmask, hsome'⟩ := tabWF_removeMatch h1.olderWF ho
      have hchne : a.getD ((m.help_rehashing).older.get_position key.hcode) [] ≠ [] := by
        intro hnil
        rw [hnil] at hr
        simp [removeFirstMatch] at hr
      refine ⟨h1.newerWF, ht', fun _ => ?_, fun hsz' => ?_, fun c hc i hi => ?_⟩
      · refine h1.olderNewer ?_
        rw [hta]
        simp
      · show (m.help_rehashing).migrate_pos ≤ t'.mask
        rw [hmask]
        refine h1.cursorLe ?_
        omega
      · subst ht'eq
        obtain rfl := Option.some.inj
          (hc : some (a.set ((m.help_rehashing).older.get_position key.hcode) rest) = some c)
        have hi' : i < (m.help_rehashing).migrate_pos := hi
        by_cases hieq : (m.help_rehashing).older.get_position key.hcode = i
        · subst hieq
          exact absurd (h1.belowEmpty a hta _ hi') hchne
        · rw [getD_set_ne _ _ _ _ _ hieq]
          exact h1.belowEmpty a hta i hi'
    | none => exact h1

theorem reachable_wf {m : HMap} (h : Reachable m) : WF m := by
  induction h with
  | empty => exact wf_empty
  | insert node _ ih => exact wf_insert ih node
  | lookup key eqf _ ih => exact wf_lookup ih key eqf
  | hm_delete key eqf _ ih => exact wf_hm_delete ih key eqf

theorem foreachChain_collect (l : List HNode) (acc : List HNode) :
    foreachChain collectVisitor l acc = (true, acc ++ l) := by
  induction l generalizing acc with
  | nil => simp [foreachChain]
  | cons n rest ih => simp [foreachChain, collectVisitor, ih]

theorem foreachFrom_collect (a : List (List HNode)) :
    ∀ (c i : Nat) (acc : List HNode),
    foreachFrom collectVisitor a i c acc = (true, acc ++ chainsFrom a i c) := by
  intro c
  induction c with
  | zero => intro i acc; simp [foreachFrom, chainsFrom]
  | succ c ih =>
    intro i acc
    simp only [foreachFrom, foreachChain_collect]
    rw [ih]
    simp [chainsFrom]

theorem chainsFrom_shift (c : Nat) : ∀ (h : List HNode) (t : List (List HNode)) (i : Nat),
    chainsFrom (h :: t) (i + 1) c = chainsFrom t i c := by
  induction c with
  | zero => intros; rfl
  | succ c ih =>
    intro h t i
    show (h :: t).getD (i + 1) [] ++ chainsFrom (h :: t) (i + 1 + 1) c
      = t.getD i [] ++ chainsFrom t (i + 1) c
    rw [List.getD_cons_succ, ih]

theorem chainsFrom_full : ∀ (a : List (List HNode)), chainsFrom a 0 a.length = a.flatten := by
  intro a
  induction a with
  | nil => rfl
  | cons h t ih =>
    show (h :: t).getD 0 [] ++ chainsFrom (h :: t) (0 + 1) t.length = h ++ t.flatten
    rw [List.getD_cons_zero, chainsFrom_shift, ih]

theorem tab_foreach_collect {t : HTab} (ht : TabWF t) (acc : List HNode) :
    t.foreach collectVisitor acc = (true, acc ++ t.nodes) := by
  rw [HTab.foreach]
  by_cases hm : t.mask = 0
  · rw [if_pos hm]
    cases htab : t.tab with
    | none => simp [HTab.nodes, htab]
    | some a => exact absurd hm (ht.maskPos a htab)
  · rw [if_neg hm]
    cases htab : t.tab with
    | none => exact absurd (ht.maskZero htab) hm
    | some a =>
      rw [Option.getD_some, foreachFrom_collect]
      rw [show t.mask + 1 = a.length from (ht.len a htab).symm, chainsFrom_full]
      rw [HTab.nodes, htab, Option.getD_some]

theorem map_foreach_collect {m : HMap} (hm : WF m) :
    m.foreach collectVisitor [] = (true, m.contents) := by
  rw [HMap.foreach]
  rw [tab_foreach_collect hm.newerWF]
  simp only []
  rw [tab_foreach_collect hm.olderWF]
  simp [HMap.contents]

theorem contents_length {m : HMap} (hm : WF m) :
    m.contents.length = m.newer.size + m.older.size := by
  rw [HMap.contents, List.length_append, nodes_length hm.newerWF,
    nodes_length hm.olderWF]

theorem insertMany_reachable (k : Nat) : Reachable (insertMany k) := by
  induction k with
  | zero => exact Reachable.empty
  | succ k ih => exact Reachable.insert _ ih

theorem help_loop_step_empty {m : HMap} {nwork fuel : Nat}
    (h1 : nwork < kRehasingWork) (h2 : 0 < m.older.size)
    (h3 : (m.older.tab.getD []).getD m.migrate_pos [] = []) :
    m.help_loop nwork (fuel + 1)
      = HMap.help_loop { m with migrate_pos := m.migrate_pos + 1 } nwork fuel := by
  rw [HMap.help_loop, if_pos ⟨h1, h2⟩]
  simp only [h3]

theorem help_loop_step_move {m : HMap} {nwork fuel : Nat} {node : HNode}
    {rest : List HNode} (h1 : nwork < kRehasingWork) (h2 : 0 < m.older.size)
    (h3 : (m.older.tab.getD []).getD m.migrate_pos [] = node :: rest) :
    m.help_loop nwork (fuel + 1)
      = HMap.help_loop { m with older := { m.older with tab := some ((m.older.tab.getD []).set m.migrate_pos rest), size := m.older.size - 1 }, newer := m.newer.insert node } (nwork + 1) fuel := by
  rw [HMap.help_loop, if_pos ⟨h1, h2⟩]
  simp only [h3]

theorem help_loop_stop {m : HMap} {nwork fuel : Nat}
    (h : ¬(nwork < kRehasingWork ∧ 0 < m.older.size)) :
    m.help_loop nwork (fuel + 1) = m := by
  rw [HMap.help_loop, if_neg h]

theorem help_loop_quota : ∀ (fuel : Nat) (m : HMap) (nwork : Nat),
    nwork ≤ kRehasingWork →
    m.older.size + nwork ≤ (m.help_loop nwork fuel).older.size + kRehasingWork := by
  intro fuel
  induction fuel with
  | zero =>
    intro m nwork h
    have hz : m.help_loop nwork 0 = m := rfl
    rw [hz]
    omega
  | succ fuel ih =>
    intro m nwork h
    by_cases hcond : nwork < kRehasingWork ∧ 0 < m.older.size
    · cases hchain : (m.older.tab.getD []).getD m.migrate_pos [] with
      | nil =>
        rw [help_loop_step_empty hcond.1 hcond.2 hchain]
        exact ih { m with migrate_pos := m.migrate_pos + 1 } nwork h
      | cons node rest =>
        rw [help_loop_step_move hcond.1 hcond.2 hchain]
        have hih : (m.older.size - 1) + (nwork + 1)
            ≤ (HMap.help_loop { m with older := { m.older with tab := some ((m.older.tab.getD []).set m.migrate_pos rest), size := m.older.size - 1 }, newer := m.newer.insert node } (nwork + 1) fuel).older.size + kRehasingWork :=
          ih { m with older := { m.older with tab := some ((m.older.tab.getD []).set m.migrate_pos rest), size := m.older.size - 1 }, newer := m.newer.insert node } (nwork + 1) (by omega)
        have h2 := hcond.2
        omega
    · rw [help_loop_stop hcond]
      omega

theorem help_loop_sum : ∀ (fuel : Nat) (m : HMap) (nwork : Nat),
    m.newer.tab.isSome = true →
    ((m.help_loop nwork fuel).newer.size + (m.help_loop nwork fuel).older.size
        = m.newer.size + m.older.size)
    ∧ (m.help_loop nwork fuel).newer.tab.isSome = true := by
  intro fuel
  induction fuel with
  | zero => exact fun m nwork h => ⟨rfl, h⟩
  | succ fuel ih =>
    intro m nwork h
    by_cases hcond : nwork < kRehasingWork ∧ 0 < m.older.size
    · cases hchain : (m.older.tab.getD []).getD m.migrate_pos [] with
      | nil =>
        rw [help_loop_step_empty hcond.1 hcond.2 hchain]
        exact ih { m with migrate_pos := m.migrate_pos + 1 } nwork h
      | cons node rest =>
        rw [help_loop_step_move hcond.1 hcond.2 hchain]
        obtain ⟨b, hb⟩ := Option.isSome_iff_exists.1 h
        obtain ⟨-, hbs, -⟩ := insert_tab_some hb node
        obtain ⟨hsum, hsome⟩ :=
          ih { m with older := { m.older with tab := some ((m.older.tab.getD []).set m.migrate_pos rest), size := m.older.size - 1 }, newer := m.newer.insert node } (nwork + 1) (insert_tab_isSome node h)
        refine ⟨hsum.trans ?_, hsome⟩
        show (m.newer.insert node).size + (m.older.size - 1) = m.newer.size + m.older.size
        rw [hbs]
        have h2 := hcond.2
        omega
    · rw [help_loop_stop hcond]
      exact ⟨rfl, h⟩

theorem help_loop_tab_none : ∀ (fuel : Nat) (m : HMap) (nwork : Nat),
    (m.older.tab = none → m.older.size = 0) →
    ((m.help_loop nwork fuel).older.tab = none → (m.help_loop nwork fuel).older.size = 0) := by
  intro fuel
  induction fuel with
  | zero => exact fun m nwork h => h
  | succ fuel ih =>
    intro m nwork h
    by_cases hcond : nwork < kRehasingWork ∧ 0 < m.older.size
    · cases hchain : (m.older.tab.getD []).getD m.migrate_pos [] with
      | nil =>
        rw [help_loop_step_empty hcond.1 hcond.2 hchain]
        exact ih { m with migrate_pos := m.migrate_pos + 1 } nwork h
      | cons node rest =>
        rw [help_loop_step_move hcond.1 hcond.2 hchain]
        refine ih _ (nwork + 1) ?_
        intro hh
        exact absurd (hh : some ((m.older.tab.getD []).set m.migrate_pos rest) = none) (by simp)
    · rw [help_loop_stop hcond]
      exact h

theorem help_loop_of_size_zero {m : HMap} (h : m.older.size = 0) (nwork : Nat) :
    ∀ fuel, m.help_loop nwork fuel = m := by
  intro fuel
  cases fuel with
  | zero => rfl
  | succ fuel => exact help_loop_stop (by omega)

theorem help_quota (m : HMap) :
    m.older.size ≤ m.help_rehashing.older.size + kRehasingWork := by
  have h := help_loop_quota (helpFuel m) m 0 (by omega)
  rw [help_rehashing_eq]
  by_cases hc : (m.help_loop 0 (helpFuel m)).older.size = 0
      ∧ (m.help_loop 0 (helpFuel m)).older.tab.isSome
  · rw [if_pos hc]
    show m.older.size ≤ emptyTab.size + kRehasingWork
    have he : emptyTab.size = 0 := rfl
    have hz := hc.1
    omega
  · rw [if_neg hc]
    omega

theorem help_sum (m : HMap) (h : m.newer.tab.isSome = true ∨ m.older.size = 0) :
    m.help_rehashing.newer.size + m.help_rehashing.older.size
      = m.newer.size + m.older.size := by
  rcases h with h | h
  · obtain ⟨hsum, -⟩ := help_loop_sum (helpFuel m) m 0 h
    rw [help_rehashing_eq]
    by_cases hc : (m.help_loop 0 (helpFuel m)).older.size = 0
        ∧ (m.help_loop 0 (helpFuel m)).older.tab.isSome
    · rw [if_pos hc]
      show (m.help_loop 0 (helpFuel m)).newer.size + emptyTab.size
          = m.newer.size + m.older.size
      have he : emptyTab.size = 0 := rfl
      have hz := hc.1
      omega
    · rw [if_neg hc]
      exact hsum
  · have hloop := help_loop_of_size_zero h 0 (helpFuel m)
    rw [help_rehashing_eq, hloop]
    by_cases hc : m.older.size = 0 ∧ m.older.tab.isSome
    · rw [if_pos hc]
      show m.newer.size + emptyTab.size = m.newer.size + m.older.size
      have he : emptyTab.size = 0 := rfl
      omega
    · rw [if_neg hc]

theorem help_free_iff {m : HMap} (hp : m.older.tab = none → m.older.size = 0) :
    (m.help_rehashing.older.tab = none ↔ m.help_rehashing.older.size = 0) := by
  rw [help_rehashing_eq]
  by_cases hc : (m.help_loop 0 (helpFuel m)).older.size = 0
      ∧ (m.help_loop 0 (helpFuel m)).older.tab.isSome
  · rw [if_pos hc]
    show emptyTab.tab = none ↔ emptyTab.size = 0
    simp [emptyTab]
  · rw [if_neg hc]
    have hP := help_loop_tab_none (helpFuel m) m 0 hp
    constructor
    · exact hP
    · intro hsz
      by_contra htab
      exact hc ⟨hsz, Option.isSome_iff_ne_none.2 htab⟩

theorem tab_lookup_matches {t : HTab} {q r : HNode} {eqf : HNode → HNode → Bool}
    (h : t.lookup q eqf = some r) : nodeMatch q eqf r = true := by
  cases htab : t.tab with
  | none => simp [HTab.lookup, htab] at h
  | some a =>
    simp only [HTab.lookup, htab] at h
    exact (findFirst_eq_some h).2

theorem nodeMatch_elim {q r : HNode} {eqf : HNode → HNode → Bool}
    (h : nodeMatch q eqf r = true) : r.hcode = q.hcode ∧ eqf r q = true := by
  rw [nodeMatch, Bool.and_eq_true, beq_iff_eq] at h
  exact h

theorem nodeMatch_intro {q n : HNode} {eqf : HNode → HNode → Bool}
    (hh : q.hcode = n.hcode) (he : eqf n q = true) : nodeMatch q eqf n = true := by
  rw [nodeMatch, Bool.and_eq_true, beq_iff_eq]
  exact ⟨hh.symm, he⟩

/-- C1 (counterexample): after inserting the 33 nodes of scenario A
(hash codes 0..32, initial capacity 4, load factor 8, quota 128), the
retiring table is unallocated and empty — refuting the claim that a rehash
cycle is still active at that point. -/
theorem claim_C1_counterexample :
    (insertMany 33).older.tab = none ∧ (insertMany 33).older.size = 0 := by
  exact ⟨by decide, by decide⟩

/-- C1 (amended): inserting the 33 scenario nodes leaves the active table
at capacity 8 with `size() = 33`, but no cycle is active: the cycle
triggered by the 32nd insert drains inside that same `insert` call (its
trailing migration step has quota 128 ≥ 32), so the retiring table is
already freed after insert 32; five further miss-lookups are no-ops,
leaving `size() = 33` and still no active cycle. -/
theorem claim_C1_theorem :
    (insertMany 32).older.tab = none
    ∧ (insertMany 32).newer.mask + 1 = 8
    ∧ (insertMany 33).newer.mask + 1 = 8
    ∧ HMap.size (insertMany 33) = 33
    ∧ (insertMany 33).older.tab = none
    ∧ ((insertMany 33).lookup missKey nodeKeyEq).2 = none
    ∧ HMap.size scenarioAfterLookups = 33
    ∧ scenarioAfterLookups.older.tab = none := by
  refine ⟨by decide, by decide, by decide, by decide, by decide, by decide,
    by decide, by decide⟩

/-- C4: every cycle start (`trigger_rehashing`) allocates the new active
table at exactly twice the capacity of the table it replaces, makes that
table the retiring one, and resets the migration cursor to 0. -/
theorem claim_C4_theorem (m : HMap) :
    (m.trigger_rehashing).newer.mask + 1 = 2 * (m.newer.mask + 1)
    ∧ (m.trigger_rehashing).older = m.newer
    ∧ (m.trigger_rehashing).migrate_pos = 0 := by
  refine ⟨?_, rfl, rfl⟩
  show (m.newer.mask + 1) * 2 - 1 + 1 = 2 * (m.newer.mask + 1)
  omega

/-- C10: `clear` frees the two backing arrays but writes no field of the
structure, so on the modelled state it is the identity; in particular
`size()` right after `clear()` still returns the pre-clear total (3 in the
concrete instance below), not zero. -/
theorem claim_C10_theorem :
    (∀ m : HMap, m.clear = m ∧ HMap.size m.clear = m.newer.size + m.older.size)
    ∧ HMap.size (HMap.clear (insertMany 3)) = 3 := by
  exact ⟨fun m => ⟨rfl, rfl⟩, by decide⟩

/-- C8: `HTab::insert` pushes the new node at the head of the slot chain
selected by `hash & mask` (most-recently-inserted-first within a slot) and
increments the count; concretely, inserting node A then node B (same slot
of a fresh 4-slot table) makes a full `foreach` traversal visit B before
A. -/
theorem claim_C8_theorem :
    (∀ (t : HTab) (node : HNode) (a : List (List HNode)), t.tab = some a →
      (t.insert node).tab = some (a.set (t.get_position node.hcode)
          (node :: a.getD (t.get_position node.hcode) []))
        ∧ (t.insert node).size = t.size + 1)
    ∧ (((HTab.init 4).insert nodeA).insert nodeB).foreach collectVisitor []
        = (true, [nodeB, nodeA]) := by
  constructor
  · intro t node a h
    obtain ⟨h1, h2, -⟩ := insert_tab_some h node
    exact ⟨h1, h2⟩
  · decide

/-- C8 witness: the head-insert clause instantiated on a fresh 4-slot
table. -/
theorem claim_C8_witness :
    ((HTab.init 4).insert nodeA).tab
      = some ((List.replicate 4 []).set ((HTab.init 4).get_position nodeA.hcode)
          (nodeA :: (List.replicate 4 []).getD ((HTab.init 4).get_position nodeA.hcode) []))
    ∧ ((HTab.init 4).insert nodeA).size = (HTab.init 4).size + 1 :=
  claim_C8_theorem.1 (HTab.init 4) nodeA (List.replicate 4 []) rfl

/-- C6: a new cycle is started only inside `insert`, and only when the
retiring table is unallocated and the active load has reached the
threshold; with a cycle already in progress (`older.tab` allocated) the
threshold test is not even made and no second cycle starts — `insert`
reduces to the plain push followed by a migration step, never promoting
the active table while the retiring one is present. -/
theorem claim_C6_theorem :
    (∀ (m : HMap) (node : HNode), m.older.tab ≠ none →
        m.insert node = (m.insertNode node).help_rehashing)
    ∧ (∀ (m : HMap) (node : HNode), m.older.tab = none →
        (m.insertNode node).newer.size
            < ((m.insertNode node).newer.mask + 1) * kMaxLoadFactor →
        m.insert node = (m.insertNode node).help_rehashing)
    ∧ (∀ (m : HMap) (node : HNode), m.older.tab = none →
        ((m.insertNode node).newer.mask + 1) * kMaxLoadFactor
            ≤ (m.insertNode node).newer.size →
        m.insert node = ((m.insertNode node).trigger_rehashing).help_rehashing) := by
  refine ⟨fun m node h => ?_, fun m node h hlt => ?_, fun m node h hge => ?_⟩
  · rw [HMap.insert]
    have ho := (insertNode_older m node).1
    have hfalse : (m.insertNode node).older.tab.isNone = false := by
      rw [ho]
      cases htab : m.older.tab with
      | none => exact absurd htab h
      | some a => rfl
    rw [if_neg (by rw [hfalse]; exact Bool.false_ne_true)]
  · rw [HMap.insert]
    have ho := (insertNode_older m node).1
    have htrue : (m.insertNode node).older.tab.isNone = true := by rw [ho, h]; rfl
    rw [if_pos htrue, if_neg (by omega)]
  · rw [HMap.insert]
    have ho := (insertNode_older m node).1
    have htrue : (m.insertNode node).older.tab.isNone = true := by rw [ho, h]; rfl
    rw [if_pos htrue, if_pos hge]

/-- C6 witness: the refusal clause at a concrete state whose retiring table
is allocated. -/
theorem claim_C6_witness :
    cycleState.insert ⟨7, 7⟩ = (cycleState.insertNode ⟨7, 7⟩).help_rehashing :=
  claim_C6_theorem.1 cycleState ⟨7, 7⟩ (by decide)

/-- C2: one bounded migration step behaves as specified.  Within the loop,
an empty slot at the cursor advances the cursor charging no quota; a
non-empty slot has its head node detached from the retiring table and
reinserted into the active table, charging one quota unit, without moving
the cursor.  A full step removes at most `kRehasingWork = 128` nodes from
the retiring table, moving them (not dropping them: the two counts' sum is
preserved whenever the active table is allocated or nothing is to be
moved), and the retiring backing array is freed (reverting the table to
the uninitialized state) exactly when its live count is zero at the end of
the step — including when a preceding delete, not this step's loop, drove
the count to zero. -/
theorem claim_C2_theorem :
    (∀ (m : HMap) (nwork fuel : Nat), nwork < kRehasingWork → 0 < m.older.size →
        (m.older.tab.getD []).getD m.migrate_pos [] = [] →
        m.help_loop nwork (fuel + 1)
          = HMap.help_loop { m with migrate_pos := m.migrate_pos + 1 } nwork fuel)
    ∧ (∀ (m : HMap) (nwork fuel : Nat) (node : HNode) (rest : List HNode),
        nwork < kRehasingWork → 0 < m.older.size →
        (m.older.tab.getD []).getD m.migrate_pos [] = node :: rest →
        m.help_loop nwork (fuel + 1)
          = HMap.help_loop { m with older := { m.older with tab := some ((m.older.tab.getD []).set m.migrate_pos rest), size := m.older.size - 1 }, newer := m.newer.insert node } (nwork + 1) fuel)
    ∧ (∀ m : HMap, m.older.size ≤ m.help_rehashing.older.size + kRehasingWork)
    ∧ (∀ m : HMap, m.newer.tab.isSome = true ∨ m.older.size = 0 →
        m.help_rehashing.newer.size + m.help_rehashing.older.size
          = m.newer.size + m.older.size)
    ∧ (∀ m : HMap, (m.older.tab = none → m.older.size = 0) →
        (m.help_rehashing.older.tab = none ↔ m.help_rehashing.older.size = 0)) := by
  refine ⟨fun m nwork fuel h1 h2 h3 => help_loop_step_empty h1 h2 h3,
    fun m nwork fuel node rest h1 h2 h3 => help_loop_step_move h1 h2 h3,
    fun m => help_quota m,
    fun m h => help_sum m h,
    fun m hp => help_free_iff hp⟩

/-- C2 witness: the freeing clause at a concrete state in which a delete
already drove the retiring count to zero — the next migration step frees
the array (and indeed ends with count zero on both sides of the iff). -/
theorem claim_C2_witness :
    drainedState.help_rehashing.older.tab = none
      ↔ drainedState.help_rehashing.older.size = 0 :=
  claim_C2_theorem.2.2.2.2 drainedState (fun h => absurd h (by decide))

/-- C3: in every reachable state, for every node `n` still stored in the
map (inserted and not since deleted) and every query key `q` carrying the
same hash code and accepted by the equality callback against `n`,
`HMap::lookup` returns some node matching `q` (hash codes equal and
callback accepting); the state it leaves behind is exactly the one after
its leading bounded migration step, and the probe tries the active table
first, falling back to the retiring one. -/
theorem claim_C3_theorem (m : HMap) (eqf : HNode → HNode → Bool) (n q : HNode)
    (hm : Reachable m) (hmem : n ∈ m.contents) (hh : q.hcode = n.hcode)
    (heq : eqf n q = true) :
    (m.lookup q eqf).1 = m.help_rehashing
    ∧ ∃ r, (m.lookup q eqf).2 = some r ∧ r.hcode = q.hcode ∧ eqf r q = true := by
  have hwf := reachable_wf hm
  obtain ⟨hwf1, hperm1, -⟩ := help_rehashing_wf hwf
  have hmem1 : n ∈ m.help_rehashing.contents := hperm1.mem_iff.2 hmem
  have hmatch : nodeMatch q eqf n = true := nodeMatch_intro hh heq
  rw [HMap.lookup]
  rcases List.mem_append.1 hmem1 with hn | ho
  · obtain ⟨r, hr, hrm⟩ := lookup_finds hwf1.newerWF hn (by rw [hh]) hmatch
    rw [hr]
    obtain ⟨hr1, hr2⟩ := nodeMatch_elim hrm
    exact ⟨rfl, r, rfl, hr1, hr2⟩
  · cases hlk : m.help_rehashing.newer.lookup q eqf with
    | some r =>
      obtain ⟨hr1, hr2⟩ := nodeMatch_elim (tab_lookup_matches hlk)
      exact ⟨rfl, r, rfl, hr1, hr2⟩
    | none =>
      obtain ⟨r, hr, hrm⟩ := lookup_finds hwf1.olderWF ho (by rw [hh]) hmatch
      rw [hr]
      obtain ⟨hr1, hr2⟩ := nodeMatch_elim hrm
      exact ⟨rfl, r, rfl, hr1, hr2⟩

/-- C3 witness: the one-node reachable map finds its node. -/
theorem claim_C3_witness :
    ((insertMany 1).lookup ⟨0, 0⟩ nodeKeyEq).1 = (insertMany 1).help_rehashing
    ∧ ∃ r, ((insertMany 1).lookup ⟨0, 0⟩ nodeKeyEq).2 = some r
        ∧ r.hcode = (⟨0, 0⟩ : HNode).hcode ∧ nodeKeyEq r ⟨0, 0⟩ = true :=
  claim_C3_theorem (insertMany 1) nodeKeyEq ⟨0, 0⟩ ⟨0, 0⟩ (insertMany_reachable 1)
    (by decide) rfl (by decide)

/-- C5: in every reachable state, `size()` is the sum of the two live
counts, and a full `foreach` traversal (a visitor that always continues,
collecting what it is shown) visits exactly the stored nodes — the
collected list is precisely the concatenation of every chain of both
tables, so no node is visited twice — and its length equals `size()`. -/
theorem claim_C5_theorem (m : HMap) (hm : Reachable m) :
    HMap.size m = m.newer.size + m.older.size
    ∧ (m.foreach collectVisitor []).2 = m.contents
    ∧ (m.foreach collectVisitor []).2.length = HMap.size m := by
  have hwf := reachable_wf hm
  refine ⟨rfl, ?_, ?_⟩
  · rw [map_foreach_collect hwf]
  · rw [map_foreach_collect hwf]
    show m.contents.length = HMap.size m
    rw [contents_length hwf]
    rfl

/-- C5 witness: instantiated on the reachable 3-insert state. -/
theorem claim_C5_witness :
    HMap.size (insertMany 3) = (insertMany 3).newer.size + (insertMany 3).older.size
    ∧ ((insertMany 3).foreach collectVisitor []).2 = (insertMany 3).contents
    ∧ ((insertMany 3).foreach collectVisitor []).2.length = HMap.size (insertMany 3) :=
  claim_C5_theorem (insertMany 3) (insertMany_reachable 3)

/-- C7: in every reachable state, deleting a key matched by no stored node
(the not-present case) returns `none` and leaves `size()` unchanged — the
leading migration step only moves nodes between the two tables. -/
theorem claim_C7_theorem (m : HMap) (eqf : HNode → HNode → Bool) (q : HNode)
    (hm : Reachable m) (habs : ∀ x ∈ m.contents, nodeMatch q eqf x = false) :
    (m.hm_delete q eqf).2 = none
    ∧ HMap.size (m.hm_delete q eqf).1 = HMap.size m := by
  have hwf := reachable_wf hm
  obtain ⟨hwf1, hperm1, hsum1⟩ := help_rehashing_wf hwf
  have habs1 : ∀ x ∈ m.help_rehashing.contents, nodeMatch q eqf x = false :=
    fun x hx => habs x (hperm1.mem_iff.1 hx)
  have hnew : m.help_rehashing.newer.removeMatch q eqf = none :=
    removeMatch_eq_none_of_no_match
      (fun x hx => habs1 x (List.mem_append.2 (Or.inl hx)))
  have hold : m.help_rehashing.older.removeMatch q eqf = none :=
    removeMatch_eq_none_of_no_match
      (fun x hx => habs1 x (List.mem_append.2 (Or.inr hx)))
  rw [HMap.hm_delete, hnew, hold]
  exact ⟨rfl, hsum1⟩

/-- C7 witness: deleting an absent key from the one-node reachable map. -/
theorem claim_C7_witness :
    ((insertMany 1).hm_delete ⟨5, 5⟩ nodeKeyEq).2 = none
    ∧ HMap.size ((insertMany 1).hm_delete ⟨5, 5⟩ nodeKeyEq).1
        = HMap.size (insertMany 1) :=
  claim_C7_theorem (insertMany 1) nodeKeyEq ⟨5, 5⟩ (insertMany_reachable 1)
    (by decide)

/-- C9: in every reachable state in which the retiring table still holds
nodes, the migration cursor is at most the retiring mask, every retiring
slot strictly below the cursor is already empty, and therefore the slot
access `older.tab[migrate_pos]` made by the bounded migration step is in
bounds of the retiring array. -/
theorem claim_C9_theorem (m : HMap) (hm : Reachable m) (hsz : 0 < m.older.size) :
    m.migrate_pos ≤ m.older.mask
    ∧ ∀ a, m.older.tab = some a →
        m.migrate_pos < a.length ∧ ∀ i, i < m.migrate_pos → a.getD i [] = [] := by
  have hwf := reachable_wf hm
  refine ⟨hwf.cursorLe hsz, fun a ha => ⟨?_, fun i hi => hwf.belowEmpty a ha i hi⟩⟩
  have hl := hwf.olderWF.len a ha
  have hc := hwf.cursorLe hsz
  omega

/-- C9 witness: the reachable 256-insert state has a cycle in progress
(retiring count 128) and its cursor within the retiring mask. -/
theorem claim_C9_witness :
    (insertMany 256).migrate_pos ≤ (insertMany 256).older.mask :=
  (claim_C9_theorem (insertMany 256) (insertMany_reachable 256)
    (by rw [insertMany256_eq]; decide)).1
